import Mathlib

/-!
Shallow embedding of the NEON STRIKE game server (`src/index.ts`, the
`gameServer` module) and proofs about its per-tick simulation, ability
resolution and timer handling.

Conventions of the embedding:
* JS numbers are embedded as `ℚ` (positions, velocities, forces, delays)
  and `ℤ` (scores, cooldown tick counters).
* `Math.sqrt` is threaded through the definitions as an explicit function
  parameter `sqrt : ℚ → ℚ` inside `Env`; concrete witnesses instantiate it
  with a table that is exact on the perfect squares they touch.
* The source computes directions as `angle = Math.atan2(dy,dx)` followed by
  `Math.cos(angle)`/`Math.sin(angle)`.  Since `cos (atan2 dy dx) = dx/dist`
  and `sin (atan2 dy dx) = dy/dist` with `dist = sqrt (dx^2+dy^2)`, the
  embedding carries the unit direction vector `(dx/dist, dy/dist)` instead
  of the angle; `angle + π` becomes negation of the vector.
* `setTimeout`/`setInterval` callbacks are embedded as `Timer` values
  (a callback tag with payload, a delay in ms, and whether the timer was
  registered through `trackTimer`, i.e. recorded in `room.abilityTimers`).
  `trackTimer` (src 925-933) appends to the registry; raw `setTimeout`
  calls do not.
* The module-level counters `mirageIdCounter`/`voidWellIdCounter`
  (src 171-172) are threaded through `GameState` as `nextMirageId` /
  `nextVoidId`.
-/

namespace NeonStrike

/-- Arena width (src 163). -/
def CANVAS_WIDTH : ℚ := 1000

/-- Arena height (src 164). -/
def CANVAS_HEIGHT : ℚ := 650

/-- Winning score (src 165). -/
def MAX_SCORE : ℤ := 21

/-- Competitive ability cooldown in ticks (src 166). -/
def COMP_COOLDOWN : ℤ := 600

/-- Player identifier (the two sides of a room). -/
inductive Pid where
  | one
  | two
deriving DecidableEq, Repr

/-- The other side. -/
def Pid.other : Pid → Pid
  | .one => .two
  | .two => .one

/-- Held directional inputs of one player (src 49). -/
structure Keys where
  up : Bool
  down : Bool
  left : Bool
  right : Bool
deriving DecidableEq, Repr

/-- Game mode of a room (src 61). -/
inductive GameMode where
  | casual
  | competitive
deriving DecidableEq, Repr

/-- The twelve power-up pickups plus the VESSEL ability (src 148-161 and the
`applyPowerUp` switch, src 939-1175). -/
inductive PType where
  | SPEED
  | SIZE
  | SHIELD
  | FREEZE
  | WAVE
  | VOID
  | MIRROR
  | METEOR
  | GRID
  | ECHO
  | BLITZ
  | INFINITY
  | VESSEL
deriving DecidableEq, Repr

/-- One buffered impact of an echo-frozen player (src 84-88).  The source
stores the angle; the embedding stores the corresponding unit direction
vector (see file header). -/
structure EchoImpact where
  dir : ℚ × ℚ
  force : ℚ
  time : ℚ
deriving DecidableEq, Repr

/-- Per-player simulation state (src 90-118). -/
structure PlayerState where
  x : ℚ
  y : ℚ
  vx : ℚ
  vy : ℚ
  radius : ℚ
  mass : ℚ
  score : ℤ
  dashReady : Bool
  isDashing : Bool
  isBlocking : Bool
  recoil : Bool
  speedMult : ℚ
  hasShield : Bool
  isFrozen : Bool
  isStunned : Bool
  isMeteor : Bool
  isGrid : Bool
  isEchoActive : Bool
  isEchoFrozen : Bool
  isInfinityActive : Bool
  isVesselActive : Bool
  echoHistory : List EchoImpact
  gridDirection : ℚ × ℚ
  color : String
  name : String
  selectedAbility : Option PType
  abilityCooldown : ℤ
deriving DecidableEq, Repr

/-- A pickup item on the field (src 120-127). -/
structure PowerUpState where
  id : ℕ
  x : ℚ
  y : ℚ
  ptype : PType
  pulse : ℚ
deriving DecidableEq, Repr

/-- A mirage projectile (src 129-138).  The source's optional `hitCooldown`
is embedded as an `ℤ` defaulting to `0`: the source's
`if (!m.hitCooldown) m.hitCooldown = 0` identifies `undefined` with `0`. -/
structure MirageState where
  id : ℕ
  owner : Pid
  x : ℚ
  y : ℚ
  vx : ℚ
  vy : ℚ
  life : ℚ
  hitCooldown : ℤ
deriving DecidableEq, Repr

/-- A void well (src 140-146). -/
structure VoidWellState where
  id : ℕ
  x : ℚ
  y : ℚ
  life : ℚ
  owner : Pid
deriving DecidableEq, Repr

/-- Room-level game state (src 69-82), plus the two module-level entity id
counters threaded through the state. -/
structure GameState where
  p1 : PlayerState
  p2 : PlayerState
  powerUps : List PowerUpState
  mirages : List MirageState
  voidWells : List VoidWellState
  shake : ℚ
  flash : ℚ
  isPaused : Bool
  gameActive : Bool
  winner : Option String
  gameMode : GameMode
  playersColliding : Bool
  nextMirageId : ℕ
  nextVoidId : ℕ
deriving DecidableEq, Repr

/-- Tag identifying, with its payload, which scheduled callback a timer
runs.  Each constructor corresponds to one `setTimeout`/`setInterval` site
in the source (cited inline). -/
inductive TimerCb where
  /-- revert `speedMult` to 1 (src 942) -/
  | revertSpeed (who : Pid)
  /-- revert radius/mass (src 948) -/
  | revertSize (who : Pid)
  /-- revert `hasShield` (src 953) -/
  | revertShield (who : Pid)
  /-- revert the opponent's `isFrozen` (src 958) -/
  | revertFreeze (who : Pid)
  /-- METEOR landing: teleport to the captured target point (src 1006-1020) -/
  | meteorLand (who : Pid) (tx ty : ℚ)
  /-- revert `isGrid` (src 1028) -/
  | revertGrid (who : Pid)
  /-- ECHO whiff: clear `isEchoActive`/`isStunned` after 400ms (src 1096) -/
  | echoAbort (who : Pid)
  /-- the ECHO pull `setInterval` loop, 16ms period (src 1048-1094) -/
  | echoPull (who : Pid)
  /-- one delayed replay of a buffered echo impact (src 1083-1088) -/
  | echoReplay (who : Pid) (dir : ℚ × ℚ) (force : ℚ)
  /-- end of one BLITZ chain dash, 150ms (src 1142-1152 / 1155-1157) -/
  | blitzChain (who : Pid)
  /-- revert `isInfinityActive` (src 1167) -/
  | revertInfinity (who : Pid)
  /-- revert `isVesselActive` (src 1173) -/
  | revertVessel (who : Pid)
  /-- end of a void-well stun (src 586) -/
  | stunEnd (who : Pid)
  /-- delayed second vessel bump on the non-vessel side (src 885-889 / 895-899) -/
  | vesselGhostHit (who : Pid) (dir : ℚ × ℚ) (force : ℚ)
  /-- end of recoil, 500ms (src 1193) -/
  | recoilEnd (who : Pid)
  /-- end of a dash, 350ms (src 1252 / 1271) -/
  | dashEnd (who : Pid)
  /-- end of a block, 400ms (src 1264) -/
  | blockEnd (who : Pid)
  /-- dash cooldown, 1600ms (src 1276) -/
  | dashReadyReset (who : Pid)
  /-- the 120ms between-dash stun release of the BLITZ chain (src 1148-1151) -/
  | blitzStunEnd (who : Pid)
  /-- the 1000ms round-over pause sequence (src 777-783) -/
  | roundOverDelay
deriving DecidableEq, Repr

/-- A scheduled delayed callback.  `tracked` is true exactly when the timer
was created through `trackTimer` and therefore recorded in the room's
`abilityTimers` registry (src 925-933). -/
structure Timer where
  cb : TimerCb
  delay : ℚ
  tracked : Bool
deriving DecidableEq, Repr

/-- Broadcast events produced during a tick (the `broadcast` calls inside
`updateGameState` and `applyPowerUp`). -/
inductive Event where
  | powerupCollected (id : ℕ) (player : String)
  | waveEffect (x y : ℚ) (who : Pid)
  | collisionEffect (x y intensity : ℚ)
  | roundOver (winner : String)
  | gameOver (winner : String)
deriving DecidableEq, Repr

/-- The per-room server state the simulation touches (src 55-67): the game
state, the countdown pause flag, and the scheduled timers.  `pending` holds
every live runtime timer; the `abilityTimers` registry is its `tracked`
sublist. -/
structure Room where
  gameState : GameState
  roundPaused : Bool
  pending : List Timer
deriving DecidableEq, Repr

/-- Ambient inputs of one tick: the embedded `Math.sqrt`, `Date.now()`, the
`Math.random()` draws consumed by MIRROR (as a unit direction and a draw in
`[0,1)` indexed by mirage id), and both players' currently held keys. -/
structure Env where
  sqrt : ℚ → ℚ
  now : ℚ
  randDir : ℕ → ℚ × ℚ
  rand01 : ℕ → ℚ
  keys1 : Keys
  keys2 : Keys

/-- Read one side's player state. -/
def GameState.getP (s : GameState) : Pid → PlayerState
  | .one => s.p1
  | .two => s.p2

/-- Replace one side's player state. -/
def GameState.setP (s : GameState) : Pid → PlayerState → GameState
  | .one, p => { s with p1 := p }
  | .two, p => { s with p2 := p }

/-- Keys held by one side this tick. -/
def Env.keys (env : Env) : Pid → Keys
  | .one => env.keys1
  | .two => env.keys2

/-- Initial player state (src 200-212). -/
def createPlayerState (color name : String) (x : ℚ) : PlayerState :=
  { x := x, y := 325, vx := 0, vy := 0,
    radius := 20, mass := 1, score := 0,
    dashReady := true, isDashing := false, isBlocking := false, recoil := false,
    speedMult := 1, hasShield := false, isFrozen := false, isStunned := false,
    isMeteor := false, isGrid := false, isEchoActive := false,
    isEchoFrozen := false, isInfinityActive := false, isVesselActive := false,
    echoHistory := [],
    gridDirection := (0, 0),
    color := color, name := name,
    selectedAbility := none,
    abilityCooldown := 0 }

/-- Initial game state (src 183-198). -/
def createInitialGameState (mode : GameMode) : GameState :=
  { p1 := createPlayerState "#00f2ff" "BLUE" 250,
    p2 := createPlayerState "#ff0077" "RED" 750,
    powerUps := [], mirages := [], voidWells := [],
    shake := 0, flash := 0,
    isPaused := false, gameActive := true, winner := none,
    gameMode := mode, playersColliding := false,
    nextMirageId := 0, nextVoidId := 0 }

/-- Embeds `applyImpact` (src 1178-1187).  An echo-frozen player buffers the
impact with the current timestamp instead of receiving it; a grid-locked
player ignores it; otherwise the velocity gains the direction scaled by the
force and by `1 / mass`. -/
def applyImpact (now : ℚ) (p : PlayerState) (dir : ℚ × ℚ) (force : ℚ) :
    PlayerState :=
  if p.isGrid then p
  else if p.isEchoFrozen then
    { p with echoHistory := p.echoHistory ++ [⟨dir, force, now⟩] }
  else
    let massMultiplier := 1 / p.mass
    { p with vx := p.vx + dir.1 * force * massMultiplier,
             vy := p.vy + dir.2 * force * massMultiplier }

/-- Embeds `triggerRecoil` (src 1189-1194): sets recoil, clears blocking and
dashing, and schedules an untracked 500ms revert. -/
def triggerRecoil (who : Pid) (p : PlayerState) : PlayerState × Timer :=
  ({ p with recoil := true, isBlocking := false, isDashing := false },
   ⟨.recoilEnd who, 500, false⟩)

/-- Per-tick competitive cooldown decrement, guarded by `> 0` (src 696-698). -/
def tickCooldown (c : ℤ) : ℤ :=
  if c > 0 then c - 1 else c

/-- Dash-hit cooldown penalty, capped at `COMP_COOLDOWN` (src 850 / 867). -/
def dashHitPenalty (c : ℤ) : ℤ :=
  min COMP_COOLDOWN (c + 200)

/-- Void-well stun cooldown penalty, capped at `COMP_COOLDOWN` (src 589). -/
def voidStunPenalty (c : ℤ) : ℤ :=
  min COMP_COOLDOWN (c + 300)

/-- Cooldown value set on ability use (src 1290). -/
def useAbilityCooldown : ℤ := COMP_COOLDOWN

/-- Cooldown value set on round reset (src 1230). -/
def resetCooldown : ℤ := 0

/-- Movement intent from held keys: the unnormalised `(moveX, moveY)`
accumulated in src 718-721. -/
def moveIntent (k : Keys) : ℚ × ℚ :=
  ((if k.left then (-1 : ℚ) else 0) + (if k.right then 1 else 0),
   (if k.up then (-1 : ℚ) else 0) + (if k.down then 1 else 0))

/-- Grid direction selection: last-pressed-wins in priority order
up, down, left, right; otherwise keep the current direction (src 708-711). -/
def gridIntent (k : Keys) (current : ℚ × ℚ) : ℚ × ℚ :=
  if k.up then (0, -1)
  else if k.down then (0, 1)
  else if k.left then (-1, 0)
  else if k.right then (1, 0)
  else current

/-- Embeds the per-player integration block of `updateGameState`
(src 700-743): movement intent and acceleration (free or grid regime),
echo-frozen zeroing, drag, and the Euler position step. -/
def integratePlayer (sqrt : ℚ → ℚ) (k : Keys) (p : PlayerState) : PlayerState :=
  let p1 :=
    if !p.isBlocking && !p.isStunned && !p.isMeteor && !p.isEchoFrozen then
      let infinitySlowMult : ℚ := if p.isInfinityActive then 0.9 else 1.0
      if p.isGrid then
        let gridSpeed : ℚ := 9.5 * infinitySlowMult
        let gd := gridIntent k p.gridDirection
        let pa := { p with gridDirection := gd }
        if !pa.isDashing then
          { pa with vx := gd.1 * gridSpeed, vy := gd.2 * gridSpeed }
        else pa
      else
        let m := moveIntent k
        if m.1 ≠ 0 ∨ m.2 ≠ 0 then
          let length := sqrt (m.1 ^ 2 + m.2 ^ 2)
          let accel : ℚ :=
            0.85 * p.speedMult * (if p.isFrozen then 0.3 else 1) *
              infinitySlowMult
          { p with vx := p.vx + m.1 / length * accel,
                   vy := p.vy + m.2 / length * accel }
        else p
    else p
  let p2 :=
    if p1.isEchoFrozen then { p1 with vx := 0, vy := 0 } else p1
  let p3 :=
    if !p1.isGrid && !p1.isEchoFrozen then
      { p2 with vx := p2.vx * 0.94, vy := p2.vy * 0.94 }
    else p2
  { p3 with x := p3.x + p3.vx, y := p3.y + p3.vy }

/-- Embeds the shielded wall bounce (src 745-750): four sequential clamps,
each reflecting the corresponding velocity component. -/
def shieldClamp (p : PlayerState) : PlayerState :=
  if p.hasShield then
    let a := if p.x < p.radius then { p with x := p.radius, vx := -p.vx } else p
    let b :=
      if a.x > CANVAS_WIDTH - a.radius then
        { a with x := CANVAS_WIDTH - a.radius, vx := -a.vx }
      else a
    let c := if b.y < b.radius then { b with y := b.radius, vy := -b.vy } else b
    if c.y > CANVAS_HEIGHT - c.radius then
      { c with y := CANVAS_HEIGHT - c.radius, vy := -c.vy }
    else c
  else p

/-- One mirage's per-tick processing against the non-owning player
(src 536-561): move, bounce off arena bounds, decrement lifetime, run the
hit-cooldown logic and, when the cooldown allows it and the victim is in
range and not blocking, knock the victim back (unless grid-locked) and arm
the 30-tick cooldown.  Returns the updated mirage, the updated victim, and
whether a hit fired this tick. -/
def mirageTick (sqrt : ℚ → ℚ) (m : MirageState) (opp : PlayerState) :
    MirageState × PlayerState × Bool :=
  let mx := m.x + m.vx
  let my := m.y + m.vy
  let nvx := if mx < 0 ∨ mx > CANVAS_WIDTH then -m.vx else m.vx
  let nvy := if my < 0 ∨ my > CANVAS_HEIGHT then -m.vy else m.vy
  let life := m.life - 1 / 60
  let dist := sqrt ((opp.x - mx) ^ 2 + (opp.y - my) ^ 2)
  let cd := if m.hitCooldown > 0 then m.hitCooldown - 1 else m.hitCooldown
  if dist < 20 + opp.radius ∧ !opp.isBlocking ∧ cd ≤ 0 then
    let dir :=
      if dist = 0 then ((1 : ℚ), (0 : ℚ))
      else ((opp.x - mx) / dist, (opp.y - my) / dist)
    let opp1 :=
      if !opp.isGrid then
        { opp with vx := opp.vx + dir.1 * 15, vy := opp.vy + dir.2 * 15 }
      else opp
    ({ m with x := mx, y := my, vx := nvx, vy := nvy, life := life,
              hitCooldown := 30 },
     opp1, true)
  else
    ({ m with x := mx, y := my, vx := nvx, vy := nvy, life := life,
              hitCooldown := cd },
     opp, false)

/-- The mirage loop of `updateGameState` (src 536-567).  The source iterates
indices from high to low; the recursion processes the tail (higher indices)
before the head and rebuilds the surviving list in order.  A mirage is
dropped exactly when its decremented lifetime is `≤ 0` (src 563-566). -/
def mirageLoop (sqrt : ℚ → ℚ) (p1 p2 : PlayerState) :
    List MirageState → List MirageState × PlayerState × PlayerState
  | [] => ([], p1, p2)
  | m :: rest =>
    let r := mirageLoop sqrt p1 p2 rest
    let opp := match m.owner with | .one => r.2.2 | .two => r.2.1
    let t := mirageTick sqrt m opp
    let res1 := match m.owner with | .one => r.2.1 | .two => t.2.1
    let res2 := match m.owner with | .one => t.2.1 | .two => r.2.2
    (if t.1.life ≤ 0 then r.1 else t.1 :: r.1, res1, res2)

/-- Mirage phase of the tick. -/
def miragePhase (sqrt : ℚ → ℚ) (s : GameState) : GameState :=
  let (ms, p1, p2) := mirageLoop sqrt s.p1 s.p2 s.mirages
  { s with mirages := ms, p1 := p1, p2 := p2 }

/-- One void well's per-tick processing against the non-owning player
(src 569-592): decrement lifetime, pull the victim toward the well within
800 units (unless blocking or grid-locked), and within 50 units stun the
victim for the well's remaining life (tracked timer) plus, in competitive
mode, the 300-tick cooldown penalty — once, edge-guarded by `!isStunned`. -/
def voidTick (sqrt : ℚ → ℚ) (mode : GameMode) (v : VoidWellState)
    (opp : PlayerState) : VoidWellState × PlayerState × List Timer :=
  let life := v.life - 1 / 60
  let dx := v.x - opp.x
  let dy := v.y - opp.y
  let dist := sqrt (dx * dx + dy * dy)
  if dist < 800 ∧ !opp.isBlocking ∧ !opp.isGrid then
    let force := (1 - dist / 800) * 2.5
    let dir :=
      if dist = 0 then ((1 : ℚ), (0 : ℚ)) else (dx / dist, dy / dist)
    let opp1 :=
      { opp with vx := opp.vx + dir.1 * force, vy := opp.vy + dir.2 * force }
    if dist < 50 ∧ !opp1.isStunned then
      let opp2 :=
        if mode = .competitive then
          { opp1 with isStunned := true,
                      abilityCooldown := voidStunPenalty opp1.abilityCooldown }
        else { opp1 with isStunned := true }
      ({ v with life := life }, opp2,
       [⟨.stunEnd (v.owner.other), life * 1000, true⟩])
    else
      ({ v with life := life }, opp1, [])
  else
    ({ v with life := life }, opp, [])

/-- The void-well loop of `updateGameState` (src 569-597), same iteration
shape as `mirageLoop`; a well is dropped exactly when its decremented
lifetime is `≤ 0`. -/
def voidLoop (sqrt : ℚ → ℚ) (mode : GameMode) (p1 p2 : PlayerState) :
    List VoidWellState →
      List VoidWellState × PlayerState × PlayerState × List Timer
  | [] => ([], p1, p2, [])
  | v :: rest =>
    let (rest1, q1, q2, ts) := voidLoop sqrt mode p1 p2 rest
    let opp := match v.owner with | .one => q2 | .two => q1
    let (v1, opp1, ts1) := voidTick sqrt mode v opp
    let (r1, r2) := match v.owner with
      | .one => (q1, opp1)
      | .two => (opp1, q2)
    (if v1.life ≤ 0 then rest1 else v1 :: rest1, r1, r2, ts ++ ts1)

/-- Void-well phase of the tick. -/
def voidPhase (sqrt : ℚ → ℚ) (s : GameState) : GameState × List Timer :=
  let (vs, p1, p2, ts) := voidLoop sqrt s.gameMode s.p1 s.p2 s.voidWells
  ({ s with voidWells := vs, p1 := p1, p2 := p2 }, ts)

/-- One direction of the infinity-field physics (src 599-689): the effect
of `owner`'s active field on `target`.  Returns the updated target; the
owner is never mutated by this block. -/
def infinityStep (sqrt : ℚ → ℚ) (owner target : PlayerState) : PlayerState :=
  if !owner.isInfinityActive then target
  else
    let dx := owner.x - target.x
    let dy := owner.y - target.y
    let dist := sqrt (dx * dx + dy * dy)
    let MIN_DISTANCE := owner.radius + target.radius + 20
    if dist < 150 then
      let proximityFactor := 1 - dist / 150
      let t1 :=
        if !target.isDashing then
          let slowFactor : ℚ :=
            0.05 + (1 - proximityFactor * proximityFactor) * 0.95
          let ta :=
            if !target.isGrid && !target.isEchoFrozen then
              { target with vx := target.vx * slowFactor,
                            vy := target.vy * slowFactor }
            else target
          if !ta.isGrid && !ta.isEchoFrozen then
            let dragStrength := proximityFactor * proximityFactor * 1.2
            let tb :=
              { ta with vx := ta.vx + owner.vx * dragStrength * 0.5,
                        vy := ta.vy + owner.vy * dragStrength * 0.5 }
            if dist > 0 then
              let pullStrength := proximityFactor * 0.3
              { tb with vx := tb.vx + dx / dist * pullStrength,
                        vy := tb.vy + dy / dist * pullStrength }
            else tb
          else ta
        else target
      let t2 :=
        if (owner.isDashing && !t1.isDashing && !t1.isGrid
              && !t1.isEchoFrozen) = true ∧ dist > 0 then
          let dashSpeed := sqrt (owner.vx * owner.vx + owner.vy * owner.vy)
          if dashSpeed > 0 then
            let dashDirX := owner.vx / dashSpeed
            let dashDirY := owner.vy / dashSpeed
            let toTargetX := (t1.x - owner.x) / dist
            let toTargetY := (t1.y - owner.y) / dist
            let dotProduct := dashDirX * toTargetX + dashDirY * toTargetY
            let directionFactor := max 0 dotProduct
            if directionFactor > 0 then
              let clampedProximity := max 0 (min 1 proximityFactor)
              let relVx := t1.vx - owner.vx
              let relVy := t1.vy - owner.vy
              let strength := clampedProximity * directionFactor
              let dampFactor := 0.95 * strength
              let tc := { t1 with vx := t1.vx - relVx * dampFactor,
                                  vy := t1.vy - relVy * dampFactor }
              let dragStrength := strength * 0.85
              { tc with vx := tc.vx + owner.vx * dragStrength,
                        vy := tc.vy + owner.vy * dragStrength }
            else t1
          else t1
        else t1
      if dist < MIN_DISTANCE ∧ dist > 0 ∧ !t2.isGrid then
        let pushForce := (MIN_DISTANCE - dist) * 1.5
        let t3 := { t2 with x := t2.x + -dx / dist * pushForce,
                            y := t2.y + -dy / dist * pushForce }
        let velTowardsOwner := (t3.vx * dx + t3.vy * dy) / dist
        if velTowardsOwner > 0 then
          { t3 with vx := t3.vx - dx / dist * velTowardsOwner,
                    vy := t3.vy - dy / dist * velTowardsOwner }
        else t3
      else t2
    else target

/-- Infinity-field phase of the tick: the source iterates the owner/target
pairs (p1,p2) then (p2,p1), so the second step sees the target mutated by
the first (src 601). -/
def infinityPhase (sqrt : ℚ → ℚ) (s : GameState) : GameState :=
  let p2a := infinityStep sqrt s.p1 s.p2
  let p1a := infinityStep sqrt p2a s.p1
  { s with p1 := p1a, p2 := p2a }

/-- The first (synchronous) BLITZ chain dash (src 1102-1138, 1161): capture
the current speed, double it with a floor of 20, pick the dash direction
from the held keys, falling back to the current velocity direction when it
is fast enough, else to a towards-opponent heuristic, and set the dash
velocity. -/
def blitzFirstDash (sqrt : ℚ → ℚ) (k : Keys) (player opponent : PlayerState) :
    PlayerState :=
  let blitzCurrentSpeed :=
    sqrt (player.vx * player.vx + player.vy * player.vy)
  let blitzDashPower := max 20 (blitzCurrentSpeed * 2)
  let b := moveIntent k
  let dir :=
    if b.1 = 0 ∧ b.2 = 0 then
      if |player.vx| > 0.5 ∨ |player.vy| > 0.5 then
        let len := sqrt (player.vx * player.vx + player.vy * player.vy)
        (player.vx / len, player.vy / len)
      else
        ((if opponent.x > player.x then (1 : ℚ) else -1), (0 : ℚ))
    else
      let len := sqrt (b.1 * b.1 + b.2 * b.2)
      (b.1 / len, b.2 / len)
  { player with vx := dir.1 * blitzDashPower, vy := dir.2 * blitzDashPower,
                isDashing := true }

/-- The state mutation run by the BLITZ 150ms chain callback when more
dashes remain (src 1142-1146): end the dash, damp the velocity to 10%, and
stun the player, scheduling the untracked 120ms stun release that triggers
the next dash. -/
def blitzChainCb (who : Pid) (p : PlayerState) : PlayerState × Timer :=
  ({ p with isDashing := false, vx := p.vx * 0.1, vy := p.vy * 0.1,
            isStunned := true },
   ⟨.blitzStunEnd who, 120, false⟩)

/-- The ECHO unfreeze callback (src 1078-1091): clear the frozen flag and
the buffer, and schedule one untracked replay timer per buffered impact,
its delay compressed to `min 1000 ((time - startTime) / 3)`. -/
def echoUnfreeze (who : Pid) (p : PlayerState) : PlayerState × List Timer :=
  let startTime := match p.echoHistory with
    | [] => (0 : ℚ)
    | h :: _ => h.time
  ({ p with isEchoFrozen := false, echoHistory := [] },
   p.echoHistory.map fun h =>
     ⟨.echoReplay who h.dir h.force, min 1000 ((h.time - startTime) / 3),
      false⟩)

/-- One replay callback (src 1083-1088): add the buffered impulse to the
velocity unless the player is grid-locked at fire time.  The replay does
not divide by mass (unlike `applyImpact`). -/
def echoReplayCb (dir : ℚ × ℚ) (force : ℚ) (p : PlayerState) : PlayerState :=
  if p.isGrid then p
  else { p with vx := p.vx + dir.1 * force, vy := p.vy + dir.2 * force }

/-- The buffered impacts whose replay callbacks actually apply their impulse
when, at the fire time of the `i`-th replay timer, the player's grid flag is
`gridAt i` (see `echoReplayCb`: a replay firing on a grid-locked player is a
no-op). -/
def replayedImpacts (gridAt : ℕ → Bool) (hs : List EchoImpact) :
    List EchoImpact :=
  (hs.enum.filter fun e => gridAt e.1 = false).map Prod.snd

/-- Sum of the impulse magnitudes of a list of recorded impacts (each entry
carries a unit direction, so its impulse magnitude is `|force|`). -/
def impulseMagnitudeSum (hs : List EchoImpact) : ℚ :=
  (hs.map fun h => |h.force|).sum

/-- Embeds `applyPowerUp` (src 935-1175) for actor `who`: the immediate
state mutations together with the scheduled timers (tracked iff created
through `trackTimer`) and the broadcast events. -/
def applyPowerUp (env : Env) (who : Pid) (t : PType) (s : GameState) :
    GameState × List Timer × List Event :=
  let player := s.getP who
  let opponent := s.getP who.other
  match t with
  | .SPEED =>
    (s.setP who { player with speedMult := 1.8 },
     [⟨.revertSpeed who, 5000, true⟩], [])
  | .SIZE =>
    (s.setP who { player with radius := 45, mass := 3 },
     [⟨.revertSize who, 7000, true⟩], [])
  | .SHIELD =>
    (s.setP who { player with hasShield := true },
     [⟨.revertShield who, 8000, true⟩], [])
  | .FREEZE =>
    (s.setP who.other { opponent with isFrozen := true },
     [⟨.revertFreeze who.other, 4500, true⟩], [])
  | .WAVE =>
    let dx := opponent.x - player.x
    let dy := opponent.y - player.y
    let dist := env.sqrt (dx * dx + dy * dy)
    let s1 :=
      if dist < 450 ∧ !opponent.isBlocking ∧ !opponent.isGrid then
        let force := (1 - dist / 450) * 45
        let dir :=
          if dist = 0 then ((1 : ℚ), (0 : ℚ)) else (dx / dist, dy / dist)
        let s0 := s.setP who.other
          { opponent with vx := opponent.vx + dir.1 * force,
                          vy := opponent.vy + dir.2 * force }
        { s0 with shake := 15 }
      else s
    (s1, [], [.waveEffect player.x player.y who])
  | .VOID =>
    ({ s with
       voidWells := s.voidWells ++
         [⟨s.nextVoidId + 1, player.x, player.y, 3, who⟩],
       nextVoidId := s.nextVoidId + 1 },
     [], [])
  | .MIRROR =>
    let mk := fun (i : ℕ) =>
      let dir := env.randDir (s.nextMirageId + i)
      let spd := 12 + env.rand01 (s.nextMirageId + i) * 6
      (⟨s.nextMirageId + i + 1, who, player.x, player.y,
        dir.1 * spd, dir.2 * spd, 5, 0⟩ : MirageState)
    ({ s with mirages := s.mirages ++ [mk 0, mk 1, mk 2, mk 3],
              nextMirageId := s.nextMirageId + 4 },
     [], [])
  | .METEOR =>
    (s.setP who { player with isMeteor := true },
     [⟨.meteorLand who opponent.x opponent.y, 800, true⟩], [])
  | .GRID =>
    (s.setP who
       { player with isGrid := true, vx := 0, vy := 0,
                     gridDirection := ((if who = .one then 1 else -1), 0) },
     [⟨.revertGrid who, 6000, true⟩], [])
  | .ECHO =>
    let player1 :=
      { player with vx := 0, vy := 0, isEchoActive := true,
                    isStunned := true }
    let echoDx := opponent.x - player1.x
    let echoDy := opponent.y - player1.y
    let echoDist := env.sqrt (echoDx * echoDx + echoDy * echoDy)
    let timers :=
      if echoDist < 150 ∧ !opponent.isBlocking ∧ !opponent.isGrid
          ∧ !opponent.isInfinityActive then
        [(⟨.echoPull who, 16, false⟩ : Timer)]
      else
        [(⟨.echoAbort who, 400, true⟩ : Timer)]
    (s.setP who player1, timers, [])
  | .BLITZ =>
    (s.setP who (blitzFirstDash env.sqrt (env.keys who) player opponent),
     [⟨.blitzChain who, 150, false⟩], [])
  | .INFINITY =>
    (s.setP who { player with isInfinityActive := true },
     [⟨.revertInfinity who, 6000, true⟩], [])
  | .VESSEL =>
    (s.setP who { player with isVesselActive := true },
     [⟨.revertVessel who, 5000, true⟩], [])

/-- Embeds `resetPlayerState` (src 1211-1231): clears every status flag,
buff and buffer; keeps position, velocity, score, name and ability
selection (position/velocity are reset by the caller `resetRound`). -/
def resetPlayerState (p : PlayerState) : PlayerState :=
  { p with dashReady := true, isDashing := false, isBlocking := false,
           recoil := false, radius := 20, mass := 1, speedMult := 1,
           hasShield := false, isFrozen := false, isStunned := false,
           isMeteor := false, isGrid := false, isEchoActive := false,
           isEchoFrozen := false, isInfinityActive := false,
           isVesselActive := false, echoHistory := [],
           gridDirection := (0, 0), abilityCooldown := resetCooldown }

/-- Embeds `resetRound` (src 1196-1209): cancel every timer recorded in the
`abilityTimers` registry (the `tracked` ones; untracked raw `setTimeout`
callbacks stay pending), reset both players' positions, velocities and
flags, and clear all field entities. -/
def resetRound (room : Room) : Room :=
  let s := room.gameState
  let p1 := resetPlayerState { s.p1 with x := 250, y := 325, vx := 0, vy := 0 }
  let p2 := resetPlayerState { s.p2 with x := 750, y := 325, vx := 0, vy := 0 }
  { room with
    pending := room.pending.filter fun tm => tm.tracked = false,
    gameState := { s with p1 := p1, p2 := p2, powerUps := [], mirages := [],
                          voidWells := [] } }

/-- The out-of-bounds condition of src 762. -/
def outOfBounds (p : PlayerState) : Prop :=
  p.x < 0 ∨ p.x > CANVAS_WIDTH ∨ p.y < 0 ∨ p.y > CANVAS_HEIGHT

instance (p : PlayerState) : Decidable (outOfBounds p) := by
  unfold outOfBounds; infer_instance

/-- Embeds the out-of-bounds branch of the per-player loop (src 762-785):
award the opponent a point, flash, and then either end the game (score
reached `MAX_SCORE`) or reset the round and start the pause sequence —
an if/else, never both. -/
def boundaryCheck (who : Pid) (room : Room) : Room × List Event :=
  let s := room.gameState
  let p := s.getP who
  if outOfBounds p then
    let w := s.getP who.other
    let w1 := { w with score := w.score + 1 }
    let s1 := { s.setP who.other w1 with flash := 1.0 }
    if w1.score ≥ MAX_SCORE then
      ({ room with gameState :=
          { s1 with gameActive := false, winner := some w1.name } },
       [.gameOver w1.name])
    else
      let room1 := resetRound { room with gameState := s1 }
      ({ room1 with roundPaused := true,
                    pending := room1.pending ++ [⟨.roundOverDelay, 1000, false⟩] },
       [.roundOver w1.name])
  else (room, [])

/-- The power-up pickup loop of the per-player block (src 752-760): the
source iterates indices from high to low; the recursion processes the tail
first and rebuilds the kept pickups in order.  A collected pickup applies
`applyPowerUp` and emits the collection event. -/
def pickupLoop (env : Env) (who : Pid) (pus : List PowerUpState)
    (s : GameState) : GameState × List PowerUpState × List Timer × List Event :=
  match pus with
  | [] => (s, [], [], [])
  | pu :: rest =>
    let (s1, kept, ts, es) := pickupLoop env who rest s
    let p := s1.getP who
    let dist := env.sqrt ((p.x - pu.x) ^ 2 + (p.y - pu.y) ^ 2)
    if dist < p.radius + 15 then
      let (s2, ts2, es2) := applyPowerUp env who pu.ptype s1
      (s2, kept, ts ++ ts2,
       es ++ es2 ++ [.powerupCollected pu.id (s1.getP who).name])
    else
      (s1, pu :: kept, ts, es)

/-- One player's slice of `updateGameState` (src 691-786): cooldown
decrement, motion integration, shield clamp, pickups, boundary check. -/
def playerPhase (env : Env) (who : Pid) (room : Room) : Room × List Event :=
  let s := room.gameState
  let p0 := s.getP who
  let p1 :=
    if s.gameMode = .competitive then
      { p0 with abilityCooldown := tickCooldown p0.abilityCooldown }
    else p0
  let p2 := integratePlayer env.sqrt (env.keys who) p1
  let p3 := shieldClamp p2
  let s1 := s.setP who p3
  let (s2, kept, ts, es) := pickupLoop env who s1.powerUps { s1 with powerUps := [] }
  let s3 := { s2 with powerUps := kept }
  let (room1, es2) :=
    boundaryCheck who { room with gameState := s3,
                                  pending := room.pending ++ ts }
  (room1, es ++ es2)

/-- Outcome of one collision-branch resolution (src 815-909): the two
players after impulses, the shake and broadcast intensity, the timers
scheduled by the branch, and which sides receive the competitive dash-hit
cooldown penalty. -/
structure BranchOut where
  b1 : PlayerState
  b2 : PlayerState
  shake : ℚ
  intensity : ℚ
  timers : List Timer
  pen1 : Bool
  pen2 : Bool
deriving DecidableEq, Repr

/-- Overlap separation along the collision normal (src 797-806): each
mobile player absorbs half the separation; if one side is echo-frozen the
other absorbs it fully (grid-locked players never move). -/
def separatePlayers (dir : ℚ × ℚ) (overlap : ℚ) (p1 p2 : PlayerState) :
    PlayerState × PlayerState :=
  if overlap > 0 then
    let separateX := dir.1 * (overlap / 2 + 1)
    let separateY := dir.2 * (overlap / 2 + 1)
    let b1 :=
      if !p1.isEchoFrozen && !p1.isGrid then
        { p1 with x := p1.x - separateX, y := p1.y - separateY }
      else p1
    let b2 :=
      if !p2.isEchoFrozen && !p2.isGrid then
        { p2 with x := p2.x + separateX, y := p2.y + separateY }
      else p2
    let c1 :=
      if b2.isEchoFrozen && !b1.isGrid then
        { b1 with x := b1.x - separateX * 2, y := b1.y - separateY * 2 }
      else b1
    let c2 :=
      if b1.isEchoFrozen && !b2.isGrid then
        { b2 with x := b2.x + separateX * 2, y := b2.y + separateY * 2 }
      else b2
    (c1, c2)
  else (p1, p2)

/-- Branch classification and impulse application of the collision
resolver (src 808-909), on the separated players `a1`, `a2`. -/
def collisionBranch (now : ℚ) (dir : ℚ × ℚ) (a1 a2 : PlayerState) :
    BranchOut :=
  let dashImpact : ℚ := 28
  let bumpForce : ℚ := 8
  let p1Dashing := a1.isDashing = true ∨ a1.speedMult > 1
  let p2Dashing := a2.isDashing = true ∨ a2.speedMult > 1
  let p1VesselMult : ℚ := if a1.isVesselActive then 2.0 else 1.0
  let p2VesselMult : ℚ := if a2.isVesselActive then 2.0 else 1.0
  let ndir := (-dir.1, -dir.2)
  if p1Dashing ∧ a2.isBlocking then
    let x1 := applyImpact now a1 ndir (dashImpact * 2.0)
    let x2 := applyImpact now a2 dir (2 * p1VesselMult)
    let y := triggerRecoil .one x1
    ⟨y.1, x2, 20 * (if a1.isVesselActive then (1.5 : ℚ) else 1), 20,
     [y.2], false, false⟩
  else if p2Dashing ∧ a1.isBlocking then
    let x2 := applyImpact now a2 dir (dashImpact * 2.0)
    let x1 := applyImpact now a1 ndir (2 * p2VesselMult)
    let y := triggerRecoil .two x2
    ⟨x1, y.1, 20 * (if a2.isVesselActive then (1.5 : ℚ) else 1), 20,
     [y.2], false, false⟩
  else if p1Dashing ∧ p2Dashing then
    let x1 := applyImpact now a1 ndir (dashImpact * p2VesselMult)
    let x2 := applyImpact now a2 dir (dashImpact * p1VesselMult)
    let y1 := if !x1.isEchoFrozen then
        let z := triggerRecoil .one x1
        (z.1, [z.2])
      else (x1, ([] : List Timer))
    let y2 := if !x2.isEchoFrozen then
        let z := triggerRecoil .two x2
        (z.1, [z.2])
      else (x2, ([] : List Timer))
    ⟨y1.1, y2.1, 25, 25, y1.2 ++ y2.2, false, false⟩
  else if p1Dashing then
    let x2 := applyImpact now a2 dir (dashImpact * p1VesselMult)
    let x1 :=
      if a2.isEchoFrozen then
        { a1 with vx := a1.vx * 0.05 - dir.1 * 3,
                  vy := a1.vy * 0.05 - dir.2 * 3 }
      else if !a1.isGrid then
        { a1 with vx := a1.vx * 0.8, vy := a1.vy * 0.8 }
      else a1
    let y2 := if !x2.isEchoFrozen then
        let z := triggerRecoil .two x2
        (z.1, [z.2])
      else (x2, ([] : List Timer))
    let mult : ℚ := if a1.isVesselActive then 1.5 else 1
    ⟨x1, y2.1, 15 * mult, 15 * mult, y2.2, false, true⟩
  else if p2Dashing then
    let x1 := applyImpact now a1 ndir (dashImpact * p2VesselMult)
    let x2 :=
      if a1.isEchoFrozen then
        { a2 with vx := a2.vx * 0.05 + dir.1 * 3,
                  vy := a2.vy * 0.05 + dir.2 * 3 }
      else if !a2.isGrid then
        { a2 with vx := a2.vx * 0.8, vy := a2.vy * 0.8 }
      else a2
    let y1 := if !x1.isEchoFrozen then
        let z := triggerRecoil .one x1
        (z.1, [z.2])
      else (x1, ([] : List Timer))
    let mult : ℚ := if a2.isVesselActive then 1.5 else 1
    ⟨y1.1, x2, 15 * mult, 15 * mult, y1.2, true, false⟩
  else
    let vesselShakeMult : ℚ :=
      if a1.isVesselActive || a2.isVesselActive then 1.5 else 1.0
    let f1 := bumpForce * (a2.mass / a1.mass)
    let f2 := bumpForce * (a1.mass / a2.mass)
    if a1.isVesselActive || a2.isVesselActive then
      if a1.isVesselActive then
        ⟨applyImpact now a1 ndir f1, applyImpact now a2 dir f2,
         5 * vesselShakeMult, 5 * vesselShakeMult,
         [⟨.vesselGhostHit .two dir f2, 300, true⟩], false, false⟩
      else
        ⟨applyImpact now a1 ndir f1, applyImpact now a2 dir f2,
         5 * vesselShakeMult, 5 * vesselShakeMult,
         [⟨.vesselGhostHit .one ndir f1, 300, true⟩], false, false⟩
    else
      ⟨applyImpact now a1 ndir f1, applyImpact now a2 dir f2,
       5 * vesselShakeMult, 5 * vesselShakeMult, [], false, false⟩

/-- Embeds the player-player collision resolution (src 788-919):
separation, branch classification on dash/speed-boost state, impulse
application, recoil, vessel handling, cooldown penalties, and the
edge-triggered collision broadcast. -/
def collisionPhase (env : Env) (room : Room) : Room × List Event :=
  let s := room.gameState
  let dx := s.p2.x - s.p1.x
  let dy := s.p2.y - s.p1.y
  let dist := env.sqrt (dx ^ 2 + dy ^ 2)
  if dist < s.p1.radius + s.p2.radius then
    let dir := if dist = 0 then ((1 : ℚ), (0 : ℚ)) else (dx / dist, dy / dist)
    let midX := (s.p1.x + s.p2.x) / 2
    let midY := (s.p1.y + s.p2.y) / 2
    let overlap := (s.p1.radius + s.p2.radius) - dist
    let a := separatePlayers dir overlap s.p1 s.p2
    let o := collisionBranch env.now dir a.1 a.2
    let r1 :=
      if o.pen1 = true ∧ s.gameMode = .competitive then
        { o.b1 with abilityCooldown := dashHitPenalty o.b1.abilityCooldown }
      else o.b1
    let r2 :=
      if o.pen2 = true ∧ s.gameMode = .competitive then
        { o.b2 with abilityCooldown := dashHitPenalty o.b2.abilityCooldown }
      else o.b2
    let s1 := { s with p1 := r1, p2 := r2, shake := o.shake }
    if !s1.playersColliding then
      ({ room with gameState := { s1 with playersColliding := true },
                   pending := room.pending ++ o.timers },
       [.collisionEffect midX midY o.intensity])
    else
      ({ room with gameState := s1, pending := room.pending ++ o.timers }, [])
  else
    ({ room with gameState := { s with playersColliding := false } }, [])

/-- Cosmetic pulse update of the pickups (src 534). -/
def pulsePhase (s : GameState) : GameState :=
  { s with powerUps := s.powerUps.map fun pu => { pu with pulse := pu.pulse + 0.1 } }

/-- Shake/flash decay at the end of the tick (src 921-922). -/
def decayPhase (s : GameState) : GameState :=
  let s1 := if s.shake > 0 then { s with shake := s.shake * 0.9 } else s
  if s1.flash > 0 then { s1 with flash := s1.flash - 0.04 } else s1

/-- Embeds `updateGameState` (src 530-923): the whole per-tick simulation.
Returns the room after the tick plus the broadcast events.  The early
return on `isPaused`/`!gameActive` (src 532) leaves the room untouched. -/
def updateGameState (env : Env) (room : Room) : Room × List Event :=
  let s := room.gameState
  if s.isPaused || !s.gameActive then (room, [])
  else
    let s1 := pulsePhase s
    let s2 := miragePhase env.sqrt s1
    let (s3, ts) := voidPhase env.sqrt s2
    let s4 := infinityPhase env.sqrt s3
    let room1 := { room with gameState := s4, pending := room.pending ++ ts }
    let (room2, ev1) := playerPhase env .one room1
    let (room3, ev2) := playerPhase env .two room2
    let (room4, ev3) := collisionPhase env room3
    ({ room4 with gameState := decayPhase room4.gameState },
     ev1 ++ ev2 ++ ev3)

/-- Embeds `handleDash` (src 1233-1277): ignored while the round countdown
runs or while the player is unable to dash; a grid dash consumes the grid
lock; with no held keys the player blocks for 400ms with velocity reset;
otherwise a 23-unit dash for 350ms; in every acting branch `dashReady` is
cleared and its 1600ms reset scheduled (src 1275-1276). -/
def handleDash (sqrt : ℚ → ℚ) (k : Keys) (who : Pid) (room : Room) : Room :=
  let s := room.gameState
  let p := s.getP who
  if room.roundPaused then room
  else if !p.dashReady || p.recoil || p.isFrozen || p.isStunned || p.isMeteor
      || p.isEchoFrozen then room
  else
    let (p1, ts) :=
      if p.isGrid then
        let dashPower : ℚ := 23
        ({ p with vx := p.gridDirection.1 * dashPower,
                  vy := p.gridDirection.2 * dashPower,
                  isDashing := true, isGrid := false },
         [(⟨.dashEnd who, 350, false⟩ : Timer)])
      else
        let d := moveIntent k
        if d.1 = 0 ∧ d.2 = 0 then
          ({ p with vx := 0, vy := 0, isBlocking := true },
           [(⟨.blockEnd who, 400, false⟩ : Timer)])
        else
          let dashPower : ℚ := 23
          let len := sqrt (d.1 * d.1 + d.2 * d.2)
          ({ p with vx := d.1 / len * dashPower,
                    vy := d.2 / len * dashPower, isDashing := true },
           [(⟨.dashEnd who, 350, false⟩ : Timer)])
    let p2 := { p1 with dashReady := false }
    let sh := s.setP who p2
    let sh1 :=
      if !p.isGrid ∧ (moveIntent k).1 = 0 ∧ (moveIntent k).2 = 0 then
        { sh with shake := 2 }
      else sh
    { room with gameState := sh1,
                pending := room.pending ++ ts ++
                  [⟨.dashReadyReset who, 1600, false⟩] }

/-- Embeds `handleAbility` (src 1279-1291): ignored during the countdown,
while the cooldown runs, or with no selected ability; otherwise applies the
selected ability as a power-up and arms the full cooldown. -/
def handleAbility (env : Env) (who : Pid) (room : Room) :
    Room × List Event :=
  let s := room.gameState
  let p := s.getP who
  if room.roundPaused then (room, [])
  else if p.abilityCooldown > 0 ∨ p.selectedAbility = none then (room, [])
  else
    match p.selectedAbility with
    | none => (room, [])
    | some ability =>
      let (s1, ts, es) := applyPowerUp env who ability s
      let p1 := s1.getP who
      ({ room with
         gameState := s1.setP who
           { p1 with abilityCooldown := useAbilityCooldown },
         pending := room.pending ++ ts }, es)

/-! Helper lemmas and concrete inputs for the claim theorems. -/

theorem GameState.getP_setP (s : GameState) (who : Pid) (p : PlayerState) :
    (s.setP who p).getP who = p := by
  cases who <;> rfl

theorem GameState.getP_setP_other (s : GameState) (who : Pid)
    (p : PlayerState) : (s.setP who.other p).getP who = s.getP who := by
  cases who <;> rfl

/-- Square root table used by the concrete witnesses, exact on the perfect
squares they touch. -/
def sqrtW : ℚ → ℚ := fun q =>
  if q = 0 then 0 else if q = 1 then 1 else if q = 400 then 20 else 0

/-- Concrete environment for the witnesses. -/
def envW : Env :=
  { sqrt := sqrtW, now := 0,
    randDir := fun _ => (1, 0), rand01 := fun _ => 0,
    keys1 := ⟨false, false, false, false⟩,
    keys2 := ⟨false, false, false, false⟩ }

/-- Direction toward the actor's own side of the arena, following the
C8 spec sentence: player 1 spawns at x = 250 in the left half of the
1000-unit-wide arena, so the direction toward player 1's side points in
negative x; symmetrically player 2's side is the right half.  This is the
spec-side definition the code's `gridDirection` assignment is compared
against. -/
def ownSideDir : Pid → ℚ × ℚ
  | .one => (-1, 0)
  | .two => (1, 0)

/-- Acceleration impulse as described by claim C6: the unit input
direction scaled by 0.85 × speed multiplier × 0.3-if-frozen ×
0.9-if-own-infinity-active, and zero when no key is held or the player is
blocking, stunned or in meteor flight. -/
def claimAccel (sqrt : ℚ → ℚ) (k : Keys) (p : PlayerState) : ℚ × ℚ :=
  if p.isBlocking ∨ p.isStunned ∨ p.isMeteor then (0, 0)
  else
    let m := moveIntent k
    if m.1 = 0 ∧ m.2 = 0 then (0, 0)
    else
      let len := sqrt (m.1 ^ 2 + m.2 ^ 2)
      let scale : ℚ :=
        0.85 * p.speedMult * (if p.isFrozen then 0.3 else 1) *
          (if p.isInfinityActive then 0.9 else 1)
      (m.1 / len * scale, m.2 / len * scale)

/-- Round-end and game-end events among a broadcast list. -/
def endEventCount (es : List Event) : ℕ :=
  (es.filter fun e =>
    match e with
    | .roundOver _ => true
    | .gameOver _ => true
    | _ => false).length

/-- Iterated mirage behaviour against an arbitrary per-tick opponent
stream: the mirage state before tick `n`. -/
def mirageTrace (sqrt : ℚ → ℚ) (opps : ℕ → PlayerState) (m0 : MirageState) :
    ℕ → MirageState
  | 0 => m0
  | n + 1 => (mirageTick sqrt (mirageTrace sqrt opps m0 n) (opps n)).1

/-- Whether the mirage knocks the opponent back during tick `n`. -/
def mirageHitAt (sqrt : ℚ → ℚ) (opps : ℕ → PlayerState) (m0 : MirageState)
    (n : ℕ) : Bool :=
  (mirageTick sqrt (mirageTrace sqrt opps m0 n) (opps n)).2.2

/-! Claim theorems. -/

/-- C9: in competitive mode, every operation that touches the ability
cooldown counter keeps it within `[0, 600]`: the guarded per-tick
decrement, the reset to 600 on ability use, the +200 dash-hit penalty and
+300 void-stun penalty (both capped by `min` with 600), and the reset to 0
on round reset. -/
theorem ability_cooldown_bounded (c : ℤ) (h0 : 0 ≤ c)
    (h1 : c ≤ COMP_COOLDOWN) :
    (0 ≤ tickCooldown c ∧ tickCooldown c ≤ COMP_COOLDOWN) ∧
    (0 ≤ useAbilityCooldown ∧ useAbilityCooldown ≤ COMP_COOLDOWN) ∧
    (0 ≤ dashHitPenalty c ∧ dashHitPenalty c ≤ COMP_COOLDOWN) ∧
    (0 ≤ voidStunPenalty c ∧ voidStunPenalty c ≤ COMP_COOLDOWN) ∧
    (0 ≤ resetCooldown ∧ resetCooldown ≤ COMP_COOLDOWN) := by
  unfold tickCooldown useAbilityCooldown dashHitPenalty voidStunPenalty
    resetCooldown COMP_COOLDOWN at *
  split_ifs <;> omega

/-- Witness for C9 at the concrete counter value 300. -/
theorem ability_cooldown_bounded_witness :
    (0 ≤ tickCooldown 300 ∧ tickCooldown 300 ≤ COMP_COOLDOWN) ∧
    (0 ≤ useAbilityCooldown ∧ useAbilityCooldown ≤ COMP_COOLDOWN) ∧
    (0 ≤ dashHitPenalty 300 ∧ dashHitPenalty 300 ≤ COMP_COOLDOWN) ∧
    (0 ≤ voidStunPenalty 300 ∧ voidStunPenalty 300 ≤ COMP_COOLDOWN) ∧
    (0 ≤ resetCooldown ∧ resetCooldown ≤ COMP_COOLDOWN) :=
  ability_cooldown_bounded 300 (by decide) (by decide)

/-- C8 counterexample: applying GRID to player 1 (who spawns at x = 250,
the left half) sets the initial grid direction to `(1, 0)`, which points
toward the opponent's side, not toward the actor's own side `(-1, 0)` as
the claim states. -/
theorem grid_direction_counterexample :
    ((applyPowerUp envW .one .GRID
        (createInitialGameState .casual)).1.getP .one).gridDirection = (1, 0)
    ∧ ownSideDir .one = (-1, 0)
    ∧ ((1 : ℚ), (0 : ℚ)) ≠ ((-1 : ℚ), (0 : ℚ)) := by
  refine ⟨rfl, rfl, ?_⟩
  intro h
  exact absurd (congrArg Prod.fst h) (by norm_num)

/-- C8 amended: applying the GRID power-up to an actor zeroes the actor's
velocity, locks the actor to cardinal movement (with a tracked 6-second
revert timer), and sets the initial movement direction toward the
OPPONENT's side of the arena (positive x for player 1, negative x for
player 2) — the exact negation of the direction toward the actor's own
side. -/
theorem grid_powerup_amended (env : Env) (who : Pid) (s : GameState) :
    ((applyPowerUp env who .GRID s).1.getP who) =
      { s.getP who with isGrid := true, vx := 0, vy := 0,
                        gridDirection := ((if who = .one then 1 else -1), 0) }
    ∧ (⟨.revertGrid who, 6000, true⟩ : Timer) ∈ (applyPowerUp env who .GRID s).2.1
    ∧ ((applyPowerUp env who .GRID s).1.getP who).gridDirection =
        -(ownSideDir who) := by
  refine ⟨?_, ?_, ?_⟩
  · simp [applyPowerUp, GameState.getP_setP]
  · simp [applyPowerUp]
  · cases who <;> simp [applyPowerUp, GameState.getP_setP, ownSideDir]

/-- C10: a dash request with no directional keys held makes the player
block (velocity reset to zero, `isBlocking` for a 400ms timer) and, exactly
as a real dash does, clears `dashReady` and schedules the same untracked
1600ms `dashReady` reset; and while `dashReady` is false `handleDash` is a
no-op, so no further dash or block can begin until the cooldown elapses. -/
theorem block_shares_dash_cooldown :
    (∀ (sq : ℚ → ℚ) (k : Keys) (who : Pid) (room : Room),
      room.roundPaused = false →
      (room.gameState.getP who).dashReady = true →
      (room.gameState.getP who).recoil = false →
      (room.gameState.getP who).isFrozen = false →
      (room.gameState.getP who).isStunned = false →
      (room.gameState.getP who).isMeteor = false →
      (room.gameState.getP who).isEchoFrozen = false →
      (room.gameState.getP who).isGrid = false →
      k = ⟨false, false, false, false⟩ →
      ((handleDash sq k who room).gameState.getP who).isBlocking = true ∧
      ((handleDash sq k who room).gameState.getP who).vx = 0 ∧
      ((handleDash sq k who room).gameState.getP who).vy = 0 ∧
      ((handleDash sq k who room).gameState.getP who).dashReady = false ∧
      (handleDash sq k who room).pending = room.pending ++
        [⟨.blockEnd who, 400, false⟩, ⟨.dashReadyReset who, 1600, false⟩]) ∧
    (∀ (sq : ℚ → ℚ) (k : Keys) (who : Pid) (room : Room),
      room.roundPaused = false →
      (room.gameState.getP who).dashReady = true →
      (room.gameState.getP who).recoil = false →
      (room.gameState.getP who).isFrozen = false →
      (room.gameState.getP who).isStunned = false →
      (room.gameState.getP who).isMeteor = false →
      (room.gameState.getP who).isEchoFrozen = false →
      (room.gameState.getP who).isGrid = false →
      ¬((moveIntent k).1 = 0 ∧ (moveIntent k).2 = 0) →
      ((handleDash sq k who room).gameState.getP who).dashReady = false ∧
      (handleDash sq k who room).pending = room.pending ++
        [⟨.dashEnd who, 350, false⟩, ⟨.dashReadyReset who, 1600, false⟩]) ∧
    (∀ (sq : ℚ → ℚ) (k : Keys) (who : Pid) (room : Room),
      (room.gameState.getP who).dashReady = false →
      handleDash sq k who room = room) := by
  refine ⟨?_, ?_, ?_⟩
  · intro sq k who room hrp hready hrec hfro hstun hmet hef hgrid hk
    subst hk
    cases who <;>
      simp_all [handleDash, GameState.getP, GameState.setP, moveIntent]
  · intro sq k who room hrp hready hrec hfro hstun hmet hef hgrid hk
    cases who <;>
      simp_all [handleDash, GameState.getP, GameState.setP, if_neg hk]
  · intro sq k who room hready
    by_cases hrp : room.roundPaused
    · simp [handleDash, hrp]
    · simp [handleDash, hrp, hready]

/-- Witness for C10: concrete room with a ready player; a keyless dash
blocks and arms the 1600ms cooldown, a rightward dash arms the same
cooldown, and with `dashReady` false the handler is a no-op. -/
theorem block_shares_dash_cooldown_witness :
    (((handleDash sqrtW ⟨false, false, false, false⟩ .one
        ⟨createInitialGameState .casual, false, []⟩).gameState.getP
          .one).isBlocking = true ∧
      ((handleDash sqrtW ⟨false, false, false, false⟩ .one
        ⟨createInitialGameState .casual, false, []⟩).gameState.getP
          .one).vx = 0 ∧
      ((handleDash sqrtW ⟨false, false, false, false⟩ .one
        ⟨createInitialGameState .casual, false, []⟩).gameState.getP
          .one).vy = 0 ∧
      ((handleDash sqrtW ⟨false, false, false, false⟩ .one
        ⟨createInitialGameState .casual, false, []⟩).gameState.getP
          .one).dashReady = false ∧
      (handleDash sqrtW ⟨false, false, false, false⟩ .one
        ⟨createInitialGameState .casual, false, []⟩).pending =
        [] ++ [⟨.blockEnd .one, 400, false⟩,
               ⟨.dashReadyReset .one, 1600, false⟩]) ∧
    (((handleDash sqrtW ⟨false, false, false, true⟩ .one
        ⟨createInitialGameState .casual, false, []⟩).gameState.getP
          .one).dashReady = false ∧
      (handleDash sqrtW ⟨false, false, false, true⟩ .one
        ⟨createInitialGameState .casual, false, []⟩).pending =
        [] ++ [⟨.dashEnd .one, 350, false⟩,
               ⟨.dashReadyReset .one, 1600, false⟩]) ∧
    (handleDash sqrtW ⟨false, false, false, false⟩ .one
      ⟨{ createInitialGameState .casual with
           p1 := { createPlayerState "#00f2ff" "BLUE" 250 with
                     dashReady := false } }, false, []⟩ =
      ⟨{ createInitialGameState .casual with
           p1 := { createPlayerState "#00f2ff" "BLUE" 250 with
                     dashReady := false } }, false, []⟩) := by
  refine ⟨?_, ?_, ?_⟩
  · exact block_shares_dash_cooldown.1 sqrtW _ .one _ rfl rfl rfl rfl rfl rfl
      rfl rfl rfl
  · exact block_shares_dash_cooldown.2.1 sqrtW _ .one _ rfl rfl rfl rfl rfl
      rfl rfl rfl (by norm_num [moveIntent])
  · exact block_shares_dash_cooldown.2.2 sqrtW _ .one _ rfl

/-- C1: the claim fails on the code.  Applying the BLITZ power-up schedules
its chain continuation with a raw `setTimeout` (src 1142), NOT through
`trackTimer`, so it is absent from the `abilityTimers` registry; a round
reset therefore does not cancel it — it is still pending afterwards — and
when it fires it mutates the new round's state (it stuns the freshly reset
player and damps their velocity), contradicting both quoted spec sentences.
This theorem evaluates the code at the failing input: BLITZ collected by
player 1 of a fresh casual room, followed immediately by a round reset. -/
theorem blitz_timer_survives_reset :
    (applyPowerUp envW .one .BLITZ (createInitialGameState .casual)).2.1 =
      [⟨.blitzChain .one, 150, false⟩] ∧
    (resetRound
      ⟨(applyPowerUp envW .one .BLITZ (createInitialGameState .casual)).1,
       false,
       (applyPowerUp envW .one .BLITZ
         (createInitialGameState .casual)).2.1⟩).pending =
      [⟨.blitzChain .one, 150, false⟩] ∧
    ((resetRound
      ⟨(applyPowerUp envW .one .BLITZ (createInitialGameState .casual)).1,
       false,
       (applyPowerUp envW .one .BLITZ
         (createInitialGameState .casual)).2.1⟩).gameState.getP
            .one).isStunned = false ∧
    (blitzChainCb .one
      ((resetRound
        ⟨(applyPowerUp envW .one .BLITZ (createInitialGameState .casual)).1,
         false,
         (applyPowerUp envW .one .BLITZ
           (createInitialGameState .casual)).2.1⟩).gameState.getP
              .one)).1.isStunned = true := by
  refine ⟨rfl, ?_, rfl, rfl⟩
  simp [resetRound, applyPowerUp]

/-- C3 counterexample: one impact of force 8 is buffered during the freeze
(velocity unchanged), but if the victim grabs GRID before the replay timer
fires (the replay delays run up to 1s after unfreeze), the replay callback
is a no-op — the buffered impact is dropped and the replayed impulse sum is
0, not 8. -/
theorem echo_replay_drop_counterexample :
    (applyImpact 0
      { createPlayerState "#ff0077" "RED" 750 with isEchoFrozen := true }
      (1, 0) 8).vx = 0 ∧
    (applyImpact 0
      { createPlayerState "#ff0077" "RED" 750 with isEchoFrozen := true }
      (1, 0) 8).vy = 0 ∧
    impulseMagnitudeSum (applyImpact 0
      { createPlayerState "#ff0077" "RED" 750 with isEchoFrozen := true }
      (1, 0) 8).echoHistory = 8 ∧
    (echoReplayCb (1, 0) 8
      { (echoUnfreeze .two (applyImpact 0
          { createPlayerState "#ff0077" "RED" 750 with isEchoFrozen := true }
          (1, 0) 8)).1 with isGrid := true }) =
      { (echoUnfreeze .two (applyImpact 0
          { createPlayerState "#ff0077" "RED" 750 with isEchoFrozen := true }
          (1, 0) 8)).1 with isGrid := true } ∧
    impulseMagnitudeSum (replayedImpacts (fun _ => true)
      (applyImpact 0
        { createPlayerState "#ff0077" "RED" 750 with isEchoFrozen := true }
        (1, 0) 8).echoHistory) = 0 ∧
    (0 : ℚ) ≠ 8 := by
  refine ⟨?_, ?_, ?_, ?_, ?_, by norm_num⟩ <;>
    simp [applyImpact, createPlayerState, impulseMagnitudeSum,
      replayedImpacts, echoReplayCb, echoUnfreeze]

/-- C3 amended: an echo-frozen (non-grid-locked) player buffers every
impact with its timestamp and keeps its velocity unchanged; the unfreeze
callback schedules exactly one replay timer per buffered impact, in order;
and PROVIDED the player is not grid-locked when each replay callback fires,
the replayed impulse magnitudes sum to exactly the buffered impulse
magnitudes — a replay firing while the player is grid-locked is dropped
(the guard of `echoReplayCb`, src 1084). -/
theorem echo_buffer_replay_amended :
    (∀ (now : ℚ) (p : PlayerState) (dir : ℚ × ℚ) (f : ℚ),
      p.isEchoFrozen = true → p.isGrid = false →
      applyImpact now p dir f =
        { p with echoHistory := p.echoHistory ++ [⟨dir, f, now⟩] }) ∧
    (∀ (who : Pid) (q : PlayerState) (gridAt : ℕ → Bool),
      (∀ i, gridAt i = false) →
      (echoUnfreeze who q).2.map Timer.cb =
        q.echoHistory.map (fun h => TimerCb.echoReplay who h.dir h.force) ∧
      replayedImpacts gridAt q.echoHistory = q.echoHistory ∧
      impulseMagnitudeSum (replayedImpacts gridAt q.echoHistory) =
        impulseMagnitudeSum q.echoHistory) := by
  constructor
  · intro now p dir f hef hg
    simp [applyImpact, hef, hg]
  · intro who q gridAt h
    have hr : replayedImpacts gridAt q.echoHistory = q.echoHistory := by
      simp [replayedImpacts, h, List.enum_map_snd]
    exact ⟨by simp [echoUnfreeze, List.map_map, Function.comp], hr, by rw [hr]⟩

/-- Witness for C3 amended: a concrete frozen player buffering one impact,
and a concrete two-impact buffer replayed in full when the player is never
grid-locked at fire time. -/
theorem echo_buffer_replay_amended_witness :
    (applyImpact 7
      { createPlayerState "#ff0077" "RED" 750 with isEchoFrozen := true }
      (1, 0) 8 =
      { { createPlayerState "#ff0077" "RED" 750 with isEchoFrozen := true }
          with echoHistory := [] ++ [⟨(1, 0), 8, 7⟩] }) ∧
    ((echoUnfreeze .two
        { createPlayerState "#ff0077" "RED" 750 with
            echoHistory := [⟨(1, 0), 8, 7⟩, ⟨(0, 1), 5, 9⟩] }).2.map Timer.cb =
      [⟨(1, 0), 8, 7⟩, ⟨(0, 1), 5, 9⟩].map
        (fun h : EchoImpact => TimerCb.echoReplay .two h.dir h.force) ∧
      replayedImpacts (fun _ => false) [⟨(1, 0), 8, 7⟩, ⟨(0, 1), 5, 9⟩] =
        [⟨(1, 0), 8, 7⟩, ⟨(0, 1), 5, 9⟩] ∧
      impulseMagnitudeSum (replayedImpacts (fun _ => false)
        [⟨(1, 0), 8, 7⟩, ⟨(0, 1), 5, 9⟩]) =
        impulseMagnitudeSum [⟨(1, 0), 8, 7⟩, ⟨(0, 1), 5, 9⟩]) :=
  ⟨echo_buffer_replay_amended.1 7 _ (1, 0) 8 rfl rfl,
   echo_buffer_replay_amended.2 .two
     { createPlayerState "#ff0077" "RED" 750 with
         echoHistory := [⟨(1, 0), 8, 7⟩, ⟨(0, 1), 5, 9⟩] }
     (fun _ => false) (fun _ => rfl)⟩

/-- C6: for every tick and every player whose grid-locked and echo-frozen
flags are both false, the velocity after integration equals
(previous velocity + acceleration impulse) × 0.94, where the acceleration
impulse (`claimAccel`) is the unit input direction scaled by
0.85 × speed multiplier × 0.3-if-frozen × 0.9-if-own-infinity-active, and
zero when no key is held or the player is blocking/stunned/in meteor
flight. -/
theorem drag_after_integration (sq : ℚ → ℚ) (k : Keys) (p : PlayerState)
    (hg : p.isGrid = false) (he : p.isEchoFrozen = false) :
    (integratePlayer sq k p).vx = (p.vx + (claimAccel sq k p).1) * 0.94 ∧
    (integratePlayer sq k p).vy = (p.vy + (claimAccel sq k p).2) * 0.94 := by
  by_cases hb : p.isBlocking
  · simp [integratePlayer, claimAccel, hg, he, hb]
  · by_cases hs : p.isStunned
    · simp [integratePlayer, claimAccel, hg, he, hb, hs]
    · by_cases hm : p.isMeteor
      · simp [integratePlayer, claimAccel, hg, he, hb, hs, hm]
      · by_cases hk : (moveIntent k).1 = 0 ∧ (moveIntent k).2 = 0
        · have hk2 : ¬((moveIntent k).1 ≠ 0 ∨ (moveIntent k).2 ≠ 0) := by
            push_neg
            exact hk
          simp [integratePlayer, claimAccel, hg, he, hb, hs, hm, hk, hk2]
        · have hk2 : (moveIntent k).1 ≠ 0 ∨ (moveIntent k).2 ≠ 0 := by
            by_contra hc
            push_neg at hc
            exact hk hc
          simp only [integratePlayer, claimAccel, hg, he, hb, hs, hm, hk, hk2]
          simp [hb, hs, hm, hk, hk2]
          constructor <;> refine Or.inl ?_ <;> split_ifs <;> ring_nf

/-- Witness for C6: the default player holding only the right key; the
intent is `(1, 0)`, its length is `sqrtW 1 = 1`, and the velocity after
integration is `(0 + 0.85) × 0.94` on x. -/
theorem drag_after_integration_witness :
    (integratePlayer sqrtW ⟨false, false, false, true⟩
      (createPlayerState "#00f2ff" "BLUE" 250)).vx =
      ((createPlayerState "#00f2ff" "BLUE" 250).vx +
        (claimAccel sqrtW ⟨false, false, false, true⟩
          (createPlayerState "#00f2ff" "BLUE" 250)).1) * 0.94 ∧
    (integratePlayer sqrtW ⟨false, false, false, true⟩
      (createPlayerState "#00f2ff" "BLUE" 250)).vy =
      ((createPlayerState "#00f2ff" "BLUE" 250).vy +
        (claimAccel sqrtW ⟨false, false, false, true⟩
          (createPlayerState "#00f2ff" "BLUE" 250)).2) * 0.94 :=
  drag_after_integration sqrtW ⟨false, false, false, true⟩
    (createPlayerState "#00f2ff" "BLUE" 250) rfl rfl

theorem mirageTick_life (sq : ℚ → ℚ) (m : MirageState) (opp : PlayerState) :
    (mirageTick sq m opp).1.life = m.life - 1 / 60 := by
  simp only [mirageTick]
  split_ifs <;> rfl

theorem mirageTick_hit_cd (sq : ℚ → ℚ) (m : MirageState) (opp : PlayerState)
    (h : (mirageTick sq m opp).2.2 = true) :
    (mirageTick sq m opp).1.hitCooldown = 30 := by
  simp only [mirageTick] at h ⊢
  split_ifs at h ⊢ <;> simp_all

theorem mirageTick_no_hit (sq : ℚ → ℚ) (m : MirageState) (opp : PlayerState)
    (h : 1 < m.hitCooldown) :
    (mirageTick sq m opp).2.2 = false ∧
    (mirageTick sq m opp).1.hitCooldown = m.hitCooldown - 1 := by
  have hcd : (if m.hitCooldown > 0 then m.hitCooldown - 1 else m.hitCooldown)
      = m.hitCooldown - 1 := by
    rw [if_pos]
    omega
  simp only [mirageTick, hcd]
  rw [if_neg]
  · exact ⟨rfl, rfl⟩
  · rintro ⟨-, -, hc⟩
    omega

theorem mirage_cd_after_hit (sq : ℚ → ℚ) (opps : ℕ → PlayerState)
    (m0 : MirageState) (n : ℕ) (hhit : mirageHitAt sq opps m0 n = true) :
    ∀ j : ℕ, j ≤ 29 →
      (mirageTrace sq opps m0 (n + 1 + j)).hitCooldown = 30 - (j : ℤ) := by
  intro j
  induction j with
  | zero =>
    intro _
    have he : mirageTrace sq opps m0 (n + 1 + 0) =
        (mirageTick sq (mirageTrace sq opps m0 n) (opps n)).1 := rfl
    rw [he, mirageTick_hit_cd sq _ _ hhit]
    norm_num
  | succ j ih =>
    intro hj
    have hcd := ih (by omega)
    have h2 : 1 < (mirageTrace sq opps m0 (n + 1 + j)).hitCooldown := by
      rw [hcd]
      omega
    have he : mirageTrace sq opps m0 (n + 1 + (j + 1)) =
        (mirageTick sq (mirageTrace sq opps m0 (n + 1 + j))
          (opps (n + 1 + j))).1 := rfl
    rw [he, (mirageTick_no_hit sq _ _ h2).2, hcd]
    push_cast
    ring

/-- C7: a mirage applies at most one knockback per 30-tick window — after
a hit at tick `n`, no hit can fire at ticks `n+1 … n+29` (so consecutive
hits of one mirage are at least 30 ticks apart) — and a mirage is removed
only when its decremented lifetime reaches zero: its lifetime evolution is
independent of hits, and the survivors of the mirage loop are exactly the
mirages whose decremented lifetime is still positive. -/
theorem mirage_hit_window_and_removal :
    (∀ (sq : ℚ → ℚ) (opps : ℕ → PlayerState) (m0 : MirageState) (n : ℕ),
      mirageHitAt sq opps m0 n = true →
      ∀ k : ℕ, 1 ≤ k → k ≤ 29 → mirageHitAt sq opps m0 (n + k) = false) ∧
    (∀ (sq : ℚ → ℚ) (m : MirageState) (opp : PlayerState),
      (mirageTick sq m opp).1.life = m.life - 1 / 60) ∧
    (∀ (sq : ℚ → ℚ) (p1 p2 : PlayerState) (ms : List MirageState),
      (mirageLoop sq p1 p2 ms).1.length =
        (ms.filter fun m => !decide (m.life - 1 / 60 ≤ 0)).length) := by
  refine ⟨?_, mirageTick_life, ?_⟩
  · intro sq opps m0 n hhit k hk1 hk29
    obtain ⟨j, rfl⟩ : ∃ j : ℕ, k = j + 1 := ⟨k - 1, by omega⟩
    have hcd := mirage_cd_after_hit sq opps m0 n hhit j (by omega)
    have h2 : 1 < (mirageTrace sq opps m0 (n + 1 + j)).hitCooldown := by
      rw [hcd]
      omega
    have he : mirageHitAt sq opps m0 (n + (j + 1)) =
        (mirageTick sq (mirageTrace sq opps m0 (n + 1 + j))
          (opps (n + 1 + j))).2.2 := by
      have : n + (j + 1) = n + 1 + j := by omega
      rw [this]
      rfl
    rw [he, (mirageTick_no_hit sq _ _ h2).1]
  · intro sq p1 p2 ms
    induction ms with
    | nil => rfl
    | cons m rest ih =>
      simp only [mirageLoop, List.filter_cons]
      by_cases hle : m.life - 1 / 60 ≤ 0
      · have hb : (!decide (m.life - 1 / 60 ≤ 0)) = false := by
          rw [decide_eq_true hle]
          rfl
        rw [if_pos (by rw [mirageTick_life]; exact hle), hb]
        simp [ih]
      · have hb : (!decide (m.life - 1 / 60 ≤ 0)) = true := by
          rw [decide_eq_false hle]
          rfl
        rw [if_neg (by rw [mirageTick_life]; exact hle), hb]
        simp [ih]

/-- Witness for C7: a stationary mirage overlapping the opponent hits on
tick 0 and is then silent on tick 1; a concrete tick decrements a lifetime
of 5 by 1/60; and the loop keeps one fresh mirage while dropping an
expired one. -/
theorem mirage_hit_window_and_removal_witness :
    mirageHitAt sqrtW
      (fun _ => { createPlayerState "#ff0077" "RED" 100 with y := 100 })
      ⟨1, .one, 100, 100, 0, 0, 5, 0⟩ (0 + 1) = false ∧
    (mirageTick sqrtW ⟨1, .one, 100, 100, 0, 0, 5, 0⟩
      (createPlayerState "#ff0077" "RED" 750)).1.life = 5 - 1 / 60 ∧
    (mirageLoop sqrtW (createPlayerState "#00f2ff" "BLUE" 250)
      (createPlayerState "#ff0077" "RED" 750)
      [⟨1, .one, 100, 100, 0, 0, 5, 0⟩,
       ⟨2, .one, 100, 100, 0, 0, 1 / 100, 0⟩]).1.length =
      ([⟨1, .one, 100, 100, 0, 0, 5, 0⟩,
        ⟨2, .one, 100, 100, 0, 0, 1 / 100, 0⟩].filter
          fun m : MirageState => !decide (m.life - 1 / 60 ≤ 0)).length := by
  refine ⟨?_, ?_, ?_⟩
  · refine mirage_hit_window_and_removal.1 sqrtW _ _ 0 ?_ 1 (by omega)
      (by omega)
    norm_num [mirageHitAt, mirageTrace, mirageTick, sqrtW,
      createPlayerState]
  · exact mirage_hit_window_and_removal.2.1 sqrtW _ _
  · exact mirage_hit_window_and_removal.2.2 sqrtW _ _ _

/-- C5: whenever a player's position is out of the arena at the boundary
check, exactly one of round-end or game-end is broadcast — never both (the
branch is a strict if/else) — and the opponent's score increases by exactly
1; a shielded player (with a sane radius) can never be out of bounds after
the wall clamp, so only unshielded players reach this path; and with the
player in bounds the check fires no event and changes nothing, so each
boundary exit scores exactly once. -/
theorem boundary_exit_exactly_one :
    (∀ (room : Room) (who : Pid),
      outOfBounds (room.gameState.getP who) →
      ((boundaryCheck who room).2 =
          [Event.gameOver ((room.gameState.getP who.other).name)] ∨
        (boundaryCheck who room).2 =
          [Event.roundOver ((room.gameState.getP who.other).name)]) ∧
      endEventCount (boundaryCheck who room).2 = 1 ∧
      ((boundaryCheck who room).1.gameState.getP who.other).score =
        (room.gameState.getP who.other).score + 1) ∧
    (∀ p : PlayerState, p.hasShield = true → 0 ≤ p.radius →
      p.radius ≤ 325 → ¬ outOfBounds (shieldClamp p)) ∧
    (∀ (room : Room) (who : Pid),
      ¬ outOfBounds (room.gameState.getP who) →
      boundaryCheck who room = (room, [])) := by
  refine ⟨?_, ?_, ?_⟩
  · intro room who hoob
    cases who
    all_goals
      simp only [boundaryCheck, if_pos hoob]
      split_ifs with hsc <;>
        simp_all [GameState.getP, GameState.setP, Pid.other, resetRound,
          resetPlayerState, endEventCount, List.filter]
  · intro p hs h0 h1
    simp only [shieldClamp, hs, if_true]
    unfold outOfBounds CANVAS_WIDTH CANVAS_HEIGHT
    split_ifs <;> push_neg <;>
      refine ⟨?_, ?_, ?_, ?_⟩ <;> simp_all <;> linarith
  · intro room who hoob
    simp [boundaryCheck, hoob]

/-- Witness for C5: a fresh room whose first player has drifted to
x = -5 (out of bounds on the left) yields exactly one end event and one
point for the opponent; the shielded default player stays in bounds; and
an in-bounds player triggers nothing. -/
theorem boundary_exit_exactly_one_witness :
    (((boundaryCheck .one
        ⟨{ createInitialGameState .casual with
             p1 := { createPlayerState "#00f2ff" "BLUE" (-5) with y := 325 } },
          false, []⟩).2 =
        [Event.gameOver "RED"] ∨
      (boundaryCheck .one
        ⟨{ createInitialGameState .casual with
             p1 := { createPlayerState "#00f2ff" "BLUE" (-5) with y := 325 } },
          false, []⟩).2 =
        [Event.roundOver "RED"]) ∧
      endEventCount (boundaryCheck .one
        ⟨{ createInitialGameState .casual with
             p1 := { createPlayerState "#00f2ff" "BLUE" (-5) with y := 325 } },
          false, []⟩).2 = 1 ∧
      ((boundaryCheck .one
        ⟨{ createInitialGameState .casual with
             p1 := { createPlayerState "#00f2ff" "BLUE" (-5) with y := 325 } },
          false, []⟩).1.gameState.getP .two).score = 0 + 1) ∧
    ¬ outOfBounds (shieldClamp
        { createPlayerState "#00f2ff" "BLUE" 250 with hasShield := true }) ∧
    boundaryCheck .one ⟨createInitialGameState .casual, false, []⟩ =
      (⟨createInitialGameState .casual, false, []⟩, []) := by
  refine ⟨?_, ?_, ?_⟩
  · have h := boundary_exit_exactly_one.1
      ⟨{ createInitialGameState .casual with
           p1 := { createPlayerState "#00f2ff" "BLUE" (-5) with y := 325 } },
        false, []⟩ .one
      (by norm_num [outOfBounds, GameState.getP, createInitialGameState,
        createPlayerState])
    simpa [GameState.getP, createInitialGameState, createPlayerState,
      Pid.other] using h
  · exact boundary_exit_exactly_one.2.1 _ rfl
      (by norm_num [createPlayerState])
      (by norm_num [createPlayerState])
  · exact boundary_exit_exactly_one.2.2 _ .one
      (by norm_num [outOfBounds, GameState.getP, createInitialGameState,
        createPlayerState, CANVAS_WIDTH, CANVAS_HEIGHT])

/-- C4: when a boundary exit brings the opponent's score to `MAX_SCORE`
(21), the game terminates — `gameActive` becomes false and `winner` is set
to the scorer's name; once `gameActive` is false, a tick returns the room
completely unchanged (so no tick mutates either player's position), and
the game-over state is idempotent under further ticks. -/
theorem game_over_terminates :
    (∀ (env : Env) (room : Room), room.gameState.gameActive = false →
      updateGameState env room = (room, [])) ∧
    (∀ (room : Room) (who : Pid),
      outOfBounds (room.gameState.getP who) →
      (room.gameState.getP who.other).score + 1 ≥ MAX_SCORE →
      (boundaryCheck who room).1.gameState.gameActive = false ∧
      (boundaryCheck who room).1.gameState.winner =
        some ((room.gameState.getP who.other).name)) ∧
    (∀ (env : Env) (room : Room), room.gameState.gameActive = false →
      updateGameState env (updateGameState env room).1 = (room, [])) := by
  have hstop : ∀ (env : Env) (room : Room),
      room.gameState.gameActive = false →
      updateGameState env room = (room, []) := by
    intro env room h
    simp [updateGameState, h]
  refine ⟨hstop, ?_, ?_⟩
  · intro room who hoob hsc
    cases who
    all_goals
      simp only [boundaryCheck, if_pos hoob]
      rw [if_pos (by simp_all [GameState.getP, GameState.setP, Pid.other])]
      simp_all [GameState.getP, GameState.setP, Pid.other]
  · intro env room h
    rw [hstop env room h, hstop env room h]

/-- Witness for C4: a dead room (gameActive false) is untouched by a tick
and by two ticks, and a boundary exit with the opponent at 20 points ends
the game with the opponent as winner. -/
theorem game_over_terminates_witness :
    updateGameState envW
      ⟨{ createInitialGameState .casual with gameActive := false }, false,
        []⟩ =
      (⟨{ createInitialGameState .casual with gameActive := false }, false,
        []⟩, []) ∧
    ((boundaryCheck .one
        ⟨{ createInitialGameState .casual with
             p1 := { createPlayerState "#00f2ff" "BLUE" (-5) with y := 325 },
             p2 := { createPlayerState "#ff0077" "RED" 750 with
                       score := 20 } },
          false, []⟩).1.gameState.gameActive = false ∧
      (boundaryCheck .one
        ⟨{ createInitialGameState .casual with
             p1 := { createPlayerState "#00f2ff" "BLUE" (-5) with y := 325 },
             p2 := { createPlayerState "#ff0077" "RED" 750 with
                       score := 20 } },
          false, []⟩).1.gameState.winner = some "RED") ∧
    updateGameState envW
      (updateGameState envW
        ⟨{ createInitialGameState .casual with gameActive := false }, false,
          []⟩).1 =
      (⟨{ createInitialGameState .casual with gameActive := false }, false,
        []⟩, []) := by
  refine ⟨game_over_terminates.1 envW _ rfl, ?_, game_over_terminates.2.2
    envW _ rfl⟩
  have h := game_over_terminates.2.1
    ⟨{ createInitialGameState .casual with
         p1 := { createPlayerState "#00f2ff" "BLUE" (-5) with y := 325 },
         p2 := { createPlayerState "#ff0077" "RED" 750 with score := 20 } },
      false, []⟩ .one
    (by norm_num [outOfBounds, GameState.getP, createInitialGameState,
      createPlayerState])
    (by norm_num [GameState.getP, createInitialGameState, createPlayerState,
      Pid.other, MAX_SCORE])
  simpa [GameState.getP, createInitialGameState, createPlayerState,
    Pid.other] using h

/-- Concrete bump scenario for C2: player 1 grew (SIZE: radius 45, mass 3)
and sits at (500,325); player 2 is at (520,325) with the default radius 20
and mass 1.  The centre distance is 20 < 45 + 20, so the players collide,
and neither is dashing, speed-boosted or vessel-active. -/
def bumpRoom : Room :=
  ⟨{ createInitialGameState .casual with
       p1 := { createPlayerState "#00f2ff" "BLUE" 500 with
                 radius := 45, mass := 3 },
       p2 := createPlayerState "#ff0077" "RED" 520 },
    false, []⟩

/-- C2 counterexample: in the concrete bump above, the bump force fed to
the impact routine for player 1 is 8 × m2/m1 = 8/3, but `applyImpact`
scales it by 1/mass again, so player 1's actual velocity change is
-8/9 on x (magnitude 8/9), not the 8 × m2/m1 = 8/3 the claim states. -/
theorem bump_impulse_counterexample :
    (collisionPhase envW bumpRoom).1.gameState.p1.vx -
      bumpRoom.gameState.p1.vx = -(8 / 9) ∧
    (collisionPhase envW bumpRoom).1.gameState.p1.vy -
      bumpRoom.gameState.p1.vy = 0 ∧
    8 * bumpRoom.gameState.p2.mass / bumpRoom.gameState.p1.mass = 8 / 3 ∧
    |(-(8 / 9) : ℚ)| ≠ 8 / 3 := by
  refine ⟨?_, ?_, by norm_num [bumpRoom, createInitialGameState,
    createPlayerState], by rw [abs_of_nonpos (by norm_num)]; norm_num⟩ <;>
    norm_num [collisionPhase, separatePlayers, collisionBranch, bumpRoom,
      createInitialGameState, createPlayerState, envW, sqrtW, applyImpact,
      triggerRecoil, dashHitPenalty]

theorem separatePlayers_spec (dir : ℚ × ℚ) (overlap : ℚ)
    (p1 p2 : PlayerState) :
    (∃ nx ny, (separatePlayers dir overlap p1 p2).1 =
      { p1 with x := nx, y := ny }) ∧
    (∃ nx ny, (separatePlayers dir overlap p1 p2).2 =
      { p2 with x := nx, y := ny }) := by
  constructor <;>
    · simp only [separatePlayers]
      split_ifs <;> exact ⟨_, _, rfl⟩

theorem collisionBranch_bump (now : ℚ) (dir : ℚ × ℚ) (a1 a2 : PlayerState)
    (hd1 : a1.isDashing = false) (hs1 : ¬ 1 < a1.speedMult)
    (hd2 : a2.isDashing = false) (hs2 : ¬ 1 < a2.speedMult)
    (hv1 : a1.isVesselActive = false) (hv2 : a2.isVesselActive = false) :
    collisionBranch now dir a1 a2 =
      ⟨applyImpact now a1 (-dir.1, -dir.2) (8 * (a2.mass / a1.mass)),
       applyImpact now a2 dir (8 * (a1.mass / a2.mass)),
       5, 5, [], false, false⟩ := by
  unfold collisionBranch
  rw [if_neg (by simp [hd1, hs1]), if_neg (by simp [hd2, hs2]),
    if_neg (by simp [hd1, hs1]), if_neg (by simp [hd1, hs1]),
    if_neg (by simp [hd2, hs2]),
    if_neg (by rw [hv1, hv2]; simp)]
  norm_num [hv1, hv2]

/-- C2 amended: in a bump collision (neither player dashing nor
speed-boosted, no vessel, both mobile), the FORCE fed to the impact routine
is 8 × opponent mass / own mass on each side, and since `applyImpact`
scales by 1/own-mass once more, the actual velocity change of player 1 is
the collision direction scaled by 8 × m2 / m1² (and symmetrically
8 × m1 / m2² for player 2); when the square root is exact on this input,
the squared magnitude of each velocity change is (8 × m2 / m1²)²
(resp. (8 × m1 / m2²)²). -/
theorem bump_mass_weighted_amended (env : Env) (room : Room)
    (hcol : env.sqrt ((room.gameState.p2.x - room.gameState.p1.x) ^ 2 +
        (room.gameState.p2.y - room.gameState.p1.y) ^ 2) <
      room.gameState.p1.radius + room.gameState.p2.radius)
    (hpos : 0 < env.sqrt ((room.gameState.p2.x - room.gameState.p1.x) ^ 2 +
        (room.gameState.p2.y - room.gameState.p1.y) ^ 2))
    (hd1 : room.gameState.p1.isDashing = false)
    (hs1 : ¬ 1 < room.gameState.p1.speedMult)
    (hd2 : room.gameState.p2.isDashing = false)
    (hs2 : ¬ 1 < room.gameState.p2.speedMult)
    (hv1 : room.gameState.p1.isVesselActive = false)
    (hv2 : room.gameState.p2.isVesselActive = false)
    (hg1 : room.gameState.p1.isGrid = false)
    (he1 : room.gameState.p1.isEchoFrozen = false)
    (hg2 : room.gameState.p2.isGrid = false)
    (he2 : room.gameState.p2.isEchoFrozen = false) :
    ((collisionPhase env room).1.gameState.p1.vx - room.gameState.p1.vx =
      -((room.gameState.p2.x - room.gameState.p1.x) /
          env.sqrt ((room.gameState.p2.x - room.gameState.p1.x) ^ 2 +
            (room.gameState.p2.y - room.gameState.p1.y) ^ 2)) *
        (8 * room.gameState.p2.mass / room.gameState.p1.mass ^ 2)) ∧
    ((collisionPhase env room).1.gameState.p1.vy - room.gameState.p1.vy =
      -((room.gameState.p2.y - room.gameState.p1.y) /
          env.sqrt ((room.gameState.p2.x - room.gameState.p1.x) ^ 2 +
            (room.gameState.p2.y - room.gameState.p1.y) ^ 2)) *
        (8 * room.gameState.p2.mass / room.gameState.p1.mass ^ 2)) ∧
    ((collisionPhase env room).1.gameState.p2.vx - room.gameState.p2.vx =
      ((room.gameState.p2.x - room.gameState.p1.x) /
          env.sqrt ((room.gameState.p2.x - room.gameState.p1.x) ^ 2 +
            (room.gameState.p2.y - room.gameState.p1.y) ^ 2)) *
        (8 * room.gameState.p1.mass / room.gameState.p2.mass ^ 2)) ∧
    ((collisionPhase env room).1.gameState.p2.vy - room.gameState.p2.vy =
      ((room.gameState.p2.y - room.gameState.p1.y) /
          env.sqrt ((room.gameState.p2.x - room.gameState.p1.x) ^ 2 +
            (room.gameState.p2.y - room.gameState.p1.y) ^ 2)) *
        (8 * room.gameState.p1.mass / room.gameState.p2.mass ^ 2)) ∧
    (env.sqrt ((room.gameState.p2.x - room.gameState.p1.x) ^ 2 +
          (room.gameState.p2.y - room.gameState.p1.y) ^ 2) *
        env.sqrt ((room.gameState.p2.x - room.gameState.p1.x) ^ 2 +
          (room.gameState.p2.y - room.gameState.p1.y) ^ 2) =
        (room.gameState.p2.x - room.gameState.p1.x) ^ 2 +
          (room.gameState.p2.y - room.gameState.p1.y) ^ 2 →
      ((collisionPhase env room).1.gameState.p1.vx -
          room.gameState.p1.vx) ^ 2 +
        ((collisionPhase env room).1.gameState.p1.vy -
          room.gameState.p1.vy) ^ 2 =
        (8 * room.gameState.p2.mass / room.gameState.p1.mass ^ 2) ^ 2 ∧
      ((collisionPhase env room).1.gameState.p2.vx -
          room.gameState.p2.vx) ^ 2 +
        ((collisionPhase env room).1.gameState.p2.vy -
          room.gameState.p2.vy) ^ 2 =
        (8 * room.gameState.p1.mass / room.gameState.p2.mass ^ 2) ^ 2) := by
  have hne : env.sqrt ((room.gameState.p2.x - room.gameState.p1.x) ^ 2 +
      (room.gameState.p2.y - room.gameState.p1.y) ^ 2) ≠ 0 :=
    ne_of_gt hpos
  have hmain :
      ((collisionPhase env room).1.gameState.p1.vx = room.gameState.p1.vx +
        -((room.gameState.p2.x - room.gameState.p1.x) /
            env.sqrt ((room.gameState.p2.x - room.gameState.p1.x) ^ 2 +
              (room.gameState.p2.y - room.gameState.p1.y) ^ 2)) *
          (8 * (room.gameState.p2.mass / room.gameState.p1.mass)) *
          (1 / room.gameState.p1.mass)) ∧
      ((collisionPhase env room).1.gameState.p1.vy = room.gameState.p1.vy +
        -((room.gameState.p2.y - room.gameState.p1.y) /
            env.sqrt ((room.gameState.p2.x - room.gameState.p1.x) ^ 2 +
              (room.gameState.p2.y - room.gameState.p1.y) ^ 2)) *
          (8 * (room.gameState.p2.mass / room.gameState.p1.mass)) *
          (1 / room.gameState.p1.mass)) ∧
      ((collisionPhase env room).1.gameState.p2.vx = room.gameState.p2.vx +
        ((room.gameState.p2.x - room.gameState.p1.x) /
            env.sqrt ((room.gameState.p2.x - room.gameState.p1.x) ^ 2 +
              (room.gameState.p2.y - room.gameState.p1.y) ^ 2)) *
          (8 * (room.gameState.p1.mass / room.gameState.p2.mass)) *
          (1 / room.gameState.p2.mass)) ∧
      ((collisionPhase env room).1.gameState.p2.vy = room.gameState.p2.vy +
        ((room.gameState.p2.y - room.gameState.p1.y) /
            env.sqrt ((room.gameState.p2.x - room.gameState.p1.x) ^ 2 +
              (room.gameState.p2.y - room.gameState.p1.y) ^ 2)) *
          (8 * (room.gameState.p1.mass / room.gameState.p2.mass)) *
          (1 / room.gameState.p2.mass)) := by
    obtain ⟨⟨nx1, ny1, ha1⟩, ⟨nx2, ny2, ha2⟩⟩ :=
      separatePlayers_spec
        ((room.gameState.p2.x - room.gameState.p1.x) /
            env.sqrt ((room.gameState.p2.x - room.gameState.p1.x) ^ 2 +
              (room.gameState.p2.y - room.gameState.p1.y) ^ 2),
          (room.gameState.p2.y - room.gameState.p1.y) /
            env.sqrt ((room.gameState.p2.x - room.gameState.p1.x) ^ 2 +
              (room.gameState.p2.y - room.gameState.p1.y) ^ 2))
        (room.gameState.p1.radius + room.gameState.p2.radius -
          env.sqrt ((room.gameState.p2.x - room.gameState.p1.x) ^ 2 +
            (room.gameState.p2.y - room.gameState.p1.y) ^ 2))
        room.gameState.p1 room.gameState.p2
    have hb := collisionBranch_bump env.now
      ((room.gameState.p2.x - room.gameState.p1.x) /
          env.sqrt ((room.gameState.p2.x - room.gameState.p1.x) ^ 2 +
            (room.gameState.p2.y - room.gameState.p1.y) ^ 2),
        (room.gameState.p2.y - room.gameState.p1.y) /
          env.sqrt ((room.gameState.p2.x - room.gameState.p1.x) ^ 2 +
            (room.gameState.p2.y - room.gameState.p1.y) ^ 2))
      (separatePlayers
        ((room.gameState.p2.x - room.gameState.p1.x) /
          env.sqrt ((room.gameState.p2.x - room.gameState.p1.x) ^ 2 +
            (room.gameState.p2.y - room.gameState.p1.y) ^ 2),
        (room.gameState.p2.y - room.gameState.p1.y) /
          env.sqrt ((room.gameState.p2.x - room.gameState.p1.x) ^ 2 +
            (room.gameState.p2.y - room.gameState.p1.y) ^ 2))
        (room.gameState.p1.radius + room.gameState.p2.radius -
          env.sqrt ((room.gameState.p2.x - room.gameState.p1.x) ^ 2 +
            (room.gameState.p2.y - room.gameState.p1.y) ^ 2))
        room.gameState.p1 room.gameState.p2).1
      (separatePlayers
        ((room.gameState.p2.x - room.gameState.p1.x) /
          env.sqrt ((room.gameState.p2.x - room.gameState.p1.x) ^ 2 +
            (room.gameState.p2.y - room.gameState.p1.y) ^ 2),
        (room.gameState.p2.y - room.gameState.p1.y) /
          env.sqrt ((room.gameState.p2.x - room.gameState.p1.x) ^ 2 +
            (room.gameState.p2.y - room.gameState.p1.y) ^ 2))
        (room.gameState.p1.radius + room.gameState.p2.radius -
          env.sqrt ((room.gameState.p2.x - room.gameState.p1.x) ^ 2 +
            (room.gameState.p2.y - room.gameState.p1.y) ^ 2))
        room.gameState.p1 room.gameState.p2).2
      (by rw [ha1]; exact hd1) (by rw [ha1]; exact hs1)
      (by rw [ha2]; exact hd2) (by rw [ha2]; exact hs2)
      (by rw [ha1]; exact hv1) (by rw [ha2]; exact hv2)
    simp only [collisionPhase]
    rw [if_pos hcol]
    simp only [if_neg hne]
    rw [hb]
    rw [ha1, ha2]
    split_ifs <;>
      simp_all [applyImpact, hg1, hg2, he1, he2]
  obtain ⟨e1, e2, e3, e4⟩ := hmain
  have g1 : (collisionPhase env room).1.gameState.p1.vx -
      room.gameState.p1.vx =
      -((room.gameState.p2.x - room.gameState.p1.x) /
          env.sqrt ((room.gameState.p2.x - room.gameState.p1.x) ^ 2 +
            (room.gameState.p2.y - room.gameState.p1.y) ^ 2)) *
        (8 * room.gameState.p2.mass / room.gameState.p1.mass ^ 2) := by
    rw [e1]
    ring
  have g2 : (collisionPhase env room).1.gameState.p1.vy -
      room.gameState.p1.vy =
      -((room.gameState.p2.y - room.gameState.p1.y) /
          env.sqrt ((room.gameState.p2.x - room.gameState.p1.x) ^ 2 +
            (room.gameState.p2.y - room.gameState.p1.y) ^ 2)) *
        (8 * room.gameState.p2.mass / room.gameState.p1.mass ^ 2) := by
    rw [e2]
    ring
  have g3 : (collisionPhase env room).1.gameState.p2.vx -
      room.gameState.p2.vx =
      ((room.gameState.p2.x - room.gameState.p1.x) /
          env.sqrt ((room.gameState.p2.x - room.gameState.p1.x) ^ 2 +
            (room.gameState.p2.y - room.gameState.p1.y) ^ 2)) *
        (8 * room.gameState.p1.mass / room.gameState.p2.mass ^ 2) := by
    rw [e3]
    ring
  have g4 : (collisionPhase env room).1.gameState.p2.vy -
      room.gameState.p2.vy =
      ((room.gameState.p2.y - room.gameState.p1.y) /
          env.sqrt ((room.gameState.p2.x - room.gameState.p1.x) ^ 2 +
            (room.gameState.p2.y - room.gameState.p1.y) ^ 2)) *
        (8 * room.gameState.p1.mass / room.gameState.p2.mass ^ 2) := by
    rw [e4]
    ring
  refine ⟨g1, g2, g3, g4, ?_⟩
  intro hsq
  have key : ∀ a b s F : ℚ, s ≠ 0 → s * s = a ^ 2 + b ^ 2 →
      (a / s * F) ^ 2 + (b / s * F) ^ 2 = F ^ 2 := by
    intro a b s F hs hss
    have hr : (a / s * F) ^ 2 + (b / s * F) ^ 2 =
        (a ^ 2 + b ^ 2) / s ^ 2 * F ^ 2 := by
      ring
    rw [hr, ← hss, show s * s = s ^ 2 by ring,
      div_self (pow_ne_zero 2 hs), one_mul]
  constructor
  · rw [g1, g2]
    have hflip : ∀ a b s F : ℚ,
        (-(a / s) * F) ^ 2 + (-(b / s) * F) ^ 2 =
        (a / s * F) ^ 2 + (b / s * F) ^ 2 := by
      intro a b s F
      ring
    rw [hflip]
    exact key _ _ _ _ hne hsq
  · rw [g3, g4]
    exact key _ _ _ _ hne hsq

/-- Witness for C2 amended at the concrete bump scenario `bumpRoom`
(masses 3 and 1, centre distance 20, exact square root): player 1's
velocity change is the collision direction scaled by 8 × m2/m1², and its
squared magnitude is (8 × m2/m1²)². -/
theorem bump_mass_weighted_amended_witness :
    ((collisionPhase envW bumpRoom).1.gameState.p1.vx -
      bumpRoom.gameState.p1.vx =
      -((bumpRoom.gameState.p2.x - bumpRoom.gameState.p1.x) /
          envW.sqrt ((bumpRoom.gameState.p2.x - bumpRoom.gameState.p1.x) ^ 2 +
            (bumpRoom.gameState.p2.y - bumpRoom.gameState.p1.y) ^ 2)) *
        (8 * bumpRoom.gameState.p2.mass / bumpRoom.gameState.p1.mass ^ 2)) ∧
    (((collisionPhase envW bumpRoom).1.gameState.p1.vx -
        bumpRoom.gameState.p1.vx) ^ 2 +
      ((collisionPhase envW bumpRoom).1.gameState.p1.vy -
        bumpRoom.gameState.p1.vy) ^ 2 =
      (8 * bumpRoom.gameState.p2.mass / bumpRoom.gameState.p1.mass ^ 2) ^ 2) := by
  have h := bump_mass_weighted_amended envW bumpRoom
    (by norm_num [envW, sqrtW, bumpRoom, createInitialGameState,
      createPlayerState])
    (by norm_num [envW, sqrtW, bumpRoom, createInitialGameState,
      createPlayerState])
    rfl (by norm_num [bumpRoom, createInitialGameState, createPlayerState])
    rfl (by norm_num [bumpRoom, createInitialGameState, createPlayerState])
    rfl rfl rfl rfl rfl rfl
  exact ⟨h.1, (h.2.2.2.2 (by norm_num [envW, sqrtW, bumpRoom,
    createInitialGameState, createPlayerState])).1⟩

end NeonStrike
